import Mathlib

/-!
Verification development for the `crewsdashboardai` repository.

The development shallowly embeds the two rule-based specification expanders
(`IntelligentOrchestrator` in `intelligent_orchestrator.py` and
`IntelligentAgentCreator` in `intelligent_agent_creator.py`), the task
lifecycle engine of `api.py` (`create_task`, `log_execution`,
`execute_crew_task`), the WebSocket broadcaster (`broadcast_message`), and
the serverless task handler (`api/tasks.py`).  Python strings are embedded
as Lean `String`s; Python dicts that are iterated in insertion order are
embedded as association lists in declaration order; CPython's
randomized-per-process string hash, which determines the iteration order of
`set` objects, is threaded explicitly as a parameter `h : String → Nat`.
-/

/-! ## Python string primitives -/

/-- Python word character (`\w`), restricted to ASCII as used by the inputs
of this repository: letters, digits and underscore. -/
def wordChar (c : Char) : Bool := c.isAlphanum || c = '_'

/-- ASCII uppercase letter, the regex class `[A-Z]`. -/
def isUpperAZ (c : Char) : Bool := 'A' ≤ c && c ≤ 'Z'

/-- ASCII lowercase letter, the regex class `[a-z]`. -/
def isLowerAZ (c : Char) : Bool := 'a' ≤ c && c ≤ 'z'

/-- Substring test on character lists: does `n` occur contiguously in `h`? -/
def subListOf (n : List Char) : List Char → Bool
  | [] => n.isEmpty
  | c :: t => n.isPrefixOf (c :: t) || subListOf n t

/-- Python's `needle in hay` operator on strings (substring containment). -/
def pyIn (needle hay : String) : Bool := subListOf needle.toList hay.toList

/-- Python `str.split()` with no argument: split on whitespace runs,
dropping empty pieces. -/
def pySplitWs (s : String) : List String :=
  (s.split Char.isWhitespace).filter (fun p => p ≠ "")

/-- Auxiliary for `wordRuns`: accumulates the current run of word
characters (reversed) while scanning. -/
def wordRunsAux : List Char → List Char → List (List Char)
  | [], acc => if acc.isEmpty then [] else [acc.reverse]
  | c :: t, acc =>
    if wordChar c then wordRunsAux t (c :: acc)
    else if acc.isEmpty then wordRunsAux t []
    else acc.reverse :: wordRunsAux t []

/-- Python `re.findall(r'\b\w+\b', text)`: the maximal runs of word
characters, in order of occurrence. -/
def wordRuns (s : String) : List String :=
  (wordRunsAux s.toList []).map String.mk

/-- Auxiliary for `pyTitle`: the Boolean records whether the previous
character was alphabetic. -/
def pyTitleAux : List Char → Bool → List Char
  | [], _ => []
  | c :: t, prevAlpha =>
    (if c.isAlpha then (if prevAlpha then c.toLower else c.toUpper) else c)
      :: pyTitleAux t c.isAlpha

/-- Python `str.title()`: uppercase the first letter of every alphabetic
run, lowercase the rest. -/
def pyTitle (s : String) : String := String.mk (pyTitleAux s.toList false)

/-- The apostrophe character, kept out of string literals. -/
def quoteChar : Char := Char.ofNat 39

/-- Python `str(list_of_strings)`: the `repr` of a list of strings, e.g.
a bracketed, comma separated sequence of single-quoted items.  Used by
`_determine_archetype`, which tests substring containment against
`str(config['preferred_tools'])`. -/
def pyReprStrList (xs : List String) : String :=
  "[" ++ String.intercalate ", "
    (xs.map (fun x => String.singleton quoteChar ++ x ++ String.singleton quoteChar)) ++ "]"

/-! ## Python `max(d, key=d.get)` over an insertion-ordered dict -/

/-- Python `max(iterable, key=...)` keeps the first element attaining the
maximum: later elements replace the current best only when strictly
greater.  Returns the designated fallback on an empty list (Python would
raise; all call sites pass non-empty lists). -/
def pyMaxKey (scores : List (String × Nat)) (fallback : String) : String :=
  match scores with
  | [] => fallback
  | p :: t => (t.foldl (fun best q => if q.2 > best.2 then q else best) p).1

/-- Maximum of the score values (0 on the empty list; all call sites pass
non-empty lists of naturals, where this agrees with Python `max`). -/
def maxScore (scores : List (String × Nat)) : Nat :=
  (scores.map (fun p => p.2)).foldl Nat.max 0

/-! ## CPython `list(set(xs))` for strings

The iteration order of a CPython `set` of strings is a function of the
per-process string hash (randomized by `PYTHONHASHSEED` at interpreter
start, constant within a process) and of the set's elements.  We model it
abstractly as: deduplicate keeping first occurrences, then stably sort by
the process hash `h`.  The two properties the development relies on are
exactly the two properties of the real iteration order: it is a function
of `h` and the elements, and it enumerates each distinct element once. -/

/-- First-occurrence deduplication (the distinct elements, insertion
order). -/
def dedupFirst : List String → List String
  | [] => []
  | x :: t => x :: (dedupFirst t).filter (fun y => y ≠ x)

/-- Insertion into a list sorted by hash value. -/
def insertByHash (h : String → Nat) (x : String) : List String → List String
  | [] => [x]
  | y :: t => if h x ≤ h y then x :: y :: t else y :: insertByHash h x t

/-- Stable insertion sort by hash value. -/
def sortByHash (h : String → Nat) : List String → List String
  | [] => []
  | x :: t => insertByHash h x (sortByHash h t)

/-- Model of CPython `list(set(xs))` under process hash `h`. -/
def pySetList (h : String → Nat) (xs : List String) : List String :=
  sortByHash h (dedupFirst xs)

/-! ## `re.findall` for the entity-extraction patterns

`IntelligentOrchestrator._extract_entities` runs `re.findall` with three
kinds of patterns: a word-boundary-delimited literal alternation (industry
and timeframe patterns), and the two company patterns
`\b[A-Z][a-z]+ (?:Inc|Corp|LLC|Ltd)\b` and
`\b[A-Z][a-z]+(?:[A-Z][a-z]+)*\b`.  The scanner below mirrors `findall`:
left-to-right scan, first alternative wins at a position, matching resumes
after the end of a match, matches are non-overlapping. -/

/-- Is there a word boundary next to this (optional) neighbouring
character? -/
def boundaryAt : Option Char → Bool
  | none => true
  | some c => !(wordChar c)

/-- Generic `findall` scanner: `m prev cs` attempts a match at the head of
`cs` given the previous character `prev`, returning the matched characters
and the remainder.  Fuel bounds the scan by the input length; every step
consumes at least one character for the matchers used here. -/
def reScanAux (m : Option Char → List Char → Option (List Char × List Char)) :
    Nat → Option Char → List Char → List String
  | 0, _, _ => []
  | _ + 1, _, [] => []
  | fuel + 1, prev, c :: rest =>
    match m prev (c :: rest) with
    | some (mt, rem) =>
      String.mk mt :: reScanAux m fuel (match mt.getLast? with | some l => some l | none => prev) rem
    | none => reScanAux m fuel (some c) rest

/-- Run the generic scanner over a string. -/
def reScan (m : Option Char → List Char → Option (List Char × List Char))
    (s : String) : List String :=
  reScanAux m s.toList.length none s.toList

/-- Matcher for a word-boundary-delimited literal alternation
`\b(?:w1|w2|...)\b`: at a boundary position, the first alternative that is
a prefix of the input and is followed by a boundary matches. -/
def litAltMatcher (alts : List String) (prev : Option Char) (cs : List Char) :
    Option (List Char × List Char) :=
  if boundaryAt prev then
    match alts.find? (fun a =>
        a.toList.isPrefixOf cs && boundaryAt (cs.drop a.toList.length).head?) with
    | some a => some (a.toList, cs.drop a.toList.length)
    | none => none
  else none

/-- `re.findall` for a word-boundary-delimited literal alternation. -/
def reFindAllLits (alts : List String) (s : String) : List String :=
  reScan (litAltMatcher alts) s

/-- Matcher for `\b[A-Z][a-z]+ (?:Inc|Corp|LLC|Ltd)\b`. -/
def company1Matcher (prev : Option Char) (cs : List Char) :
    Option (List Char × List Char) :=
  if boundaryAt prev then
    match cs with
    | [] => none
    | c :: t =>
      if isUpperAZ c then
        let low := t.takeWhile isLowerAZ
        let rest1 := t.dropWhile isLowerAZ
        if low.isEmpty then none
        else
          match rest1 with
          | ' ' :: rest2 =>
            match ["Inc", "Corp", "LLC", "Ltd"].find? (fun a =>
                a.toList.isPrefixOf rest2 && boundaryAt (rest2.drop a.toList.length).head?) with
            | some a => some (c :: low ++ ' ' :: a.toList, rest2.drop a.toList.length)
            | none => none
          | _ => none
      else none
  else none

/-- Greedy parse of one or more CamelCase chunks `[A-Z][a-z]+`, fuelled by
the input length.  Returns the parsed characters and the remainder. -/
def camelChunksAux : Nat → List Char → (List Char × List Char)
  | 0, cs => ([], cs)
  | fuel + 1, cs =>
    match cs with
    | c :: t =>
      if isUpperAZ c then
        let low := t.takeWhile isLowerAZ
        if low.isEmpty then ([], cs)
        else
          let (more, rem) := camelChunksAux fuel (t.dropWhile isLowerAZ)
          (c :: low ++ more, rem)
      else ([], cs)
    | [] => ([], cs)

/-- Matcher for `\b[A-Z][a-z]+(?:[A-Z][a-z]+)*\b`.  Backtracking over the
starred group cannot rescue a failed trailing boundary (dropping a chunk
lands directly before an uppercase word character), so the greedy maximal
parse is the only candidate. -/
def company2Matcher (prev : Option Char) (cs : List Char) :
    Option (List Char × List Char) :=
  if boundaryAt prev then
    let (mt, rem) := camelChunksAux cs.length cs
    if mt.isEmpty then none
    else if boundaryAt rem.head? then some (mt, rem) else none
  else none

/-- `re.findall` for the first company pattern. -/
def reFindCompany1 (s : String) : List String := reScan company1Matcher s

/-- `re.findall` for the second company pattern. -/
def reFindCompany2 (s : String) : List String := reScan company2Matcher s

/-! ## `IntelligentOrchestrator` (intelligent_orchestrator.py)

Embedding of the task-expansion pipeline `expand_user_input` and its
helpers.  Method names keep the Python names without the leading
underscore.  The process string hash `h` is threaded into `select_agents`
(the one helper that calls `list(set(...))`). -/

namespace IntelligentOrchestrator

/-- One entry of `_load_intent_patterns`. -/
structure IntentConfig where
  keywords : List String
  indicators : List String
  default_priority : String
  estimated_duration : String
deriving DecidableEq, Repr

/-- `_load_intent_patterns`, in declaration order. -/
def intent_patterns : List (String × IntentConfig) :=
  [ ("research",
     { keywords := ["research", "analyze", "study", "investigate", "explore", "examine", "review"]
       indicators := ["trends", "market", "competitors", "industry", "data", "information"]
       default_priority := "medium"
       estimated_duration := "2-4 hours" })
  , ("create",
     { keywords := ["create", "build", "develop", "design", "make", "generate", "produce"]
       indicators := ["plan", "strategy", "document", "report", "presentation", "content"]
       default_priority := "high"
       estimated_duration := "3-6 hours" })
  , ("optimize",
     { keywords := ["optimize", "improve", "enhance", "refine", "streamline", "upgrade"]
       indicators := ["process", "workflow", "performance", "efficiency", "system"]
       default_priority := "medium"
       estimated_duration := "4-8 hours" })
  , ("monitor",
     { keywords := ["monitor", "track", "watch", "observe", "check", "audit"]
       indicators := ["performance", "metrics", "status", "health", "compliance"]
       default_priority := "low"
       estimated_duration := "1-2 hours" })
  , ("automate",
     { keywords := ["automate", "schedule", "batch", "recurring", "systematic"]
       indicators := ["process", "workflow", "task", "operation", "routine"]
       default_priority := "high"
       estimated_duration := "6-12 hours" }) ]

/-- One entry of `_load_domain_knowledge`. -/
structure DomainKnowledge where
  contexts : List String
  outputs : List String
  agents : List String
deriving DecidableEq, Repr

/-- `_load_domain_knowledge`, in declaration order. -/
def domain_knowledge : List (String × DomainKnowledge) :=
  [ ("business",
     { contexts := ["market analysis", "competitive intelligence", "financial planning", "strategic planning"]
       outputs := ["executive summary", "detailed report", "recommendations", "action items"]
       agents := ["research_intelligence_agent", "data_processing_specialist", "quality_assurance_specialist"] })
  , ("technology",
     { contexts := ["system architecture", "performance optimization", "security analysis", "integration planning"]
       outputs := ["technical specifications", "implementation plan", "risk assessment", "documentation"]
       agents := ["data_processing_specialist", "execution_monitor", "quality_assurance_specialist"] })
  , ("marketing",
     { contexts := ["audience analysis", "campaign planning", "content strategy", "brand positioning"]
       outputs := ["marketing plan", "content calendar", "campaign metrics", "brand guidelines"]
       agents := ["research_intelligence_agent", "orchestration_coordinator", "quality_assurance_specialist"] })
  , ("operations",
     { contexts := ["process optimization", "resource allocation", "workflow design", "quality control"]
       outputs := ["process documentation", "efficiency metrics", "optimization recommendations", "SOPs"]
       agents := ["task_allocation_manager", "execution_monitor", "quality_assurance_specialist"] }) ]

/-- `_clean_input`: collapse whitespace and lowercase. -/
def clean_input (user_input : String) : String :=
  (String.intercalate " " (pySplitWs user_input.trim)).toLower

/-- Score loop body of `_detect_intent`: 3 per matched keyword, then 2 per
matched indicator, accumulated exactly as the Python loops do. -/
def intentScore (cfg : IntentConfig) (input_text : String) : Nat :=
  let s1 := cfg.keywords.foldl (fun sc k => if pyIn k input_text then sc + 3 else sc) 0
  cfg.indicators.foldl (fun sc k => if pyIn k input_text then sc + 2 else sc) s1

/-- `_detect_intent`: highest-scoring intent, defaulting to `research`
when every score is zero. -/
def detect_intent (input_text : String) : String :=
  let intent_scores := intent_patterns.map (fun p => (p.1, intentScore p.2 input_text))
  if maxScore intent_scores > 0 then pyMaxKey intent_scores "research" else "research"

/-- Keyword table local to `_detect_domain`. -/
def domain_keywords : List (String × List String) :=
  [ ("business", ["business", "market", "revenue", "profit", "sales", "customer", "competitor"])
  , ("technology", ["tech", "software", "system", "platform", "api", "database", "cloud"])
  , ("marketing", ["marketing", "brand", "campaign", "content", "social", "advertising"])
  , ("operations", ["process", "workflow", "operation", "efficiency", "quality", "resource"]) ]

/-- `_detect_domain`: one point per matched keyword, defaulting to
`business` when every score is zero. -/
def detect_domain (input_text : String) : String :=
  let domain_scores := domain_keywords.map
    (fun p => (p.1, p.2.countP (fun k => pyIn k input_text)))
  if maxScore domain_scores > 0 then pyMaxKey domain_scores "business" else "business"

/-- The entity dictionary built by `_extract_entities`.  The `metrics` and
`technologies` keys exist in the source but are never populated. -/
structure Entities where
  companies : List String
  industries : List String
  timeframes : List String
  metrics : List String
  technologies : List String
deriving DecidableEq, Repr

/-- `_extract_entities`: companies from the two company patterns (both
require an ASCII uppercase start and hence never match the lowercased
input that `expand_user_input` passes), industries and timeframes from
word-boundary-delimited literal alternations. -/
def extract_entities (input_text : String) : Entities :=
  { companies := reFindCompany1 input_text ++ reFindCompany2 input_text
    industries := reFindAllLits
      ["healthcare", "finance", "retail", "technology", "manufacturing", "education"] input_text
    timeframes := reFindAllLits
      ["daily", "weekly", "monthly", "quarterly", "yearly", "2024", "2025"] input_text
    metrics := []
    technologies := [] }

/-- Base template of `_generate_expanded_description`
(`base_templates.get(intent, ...)`). -/
def descBaseTemplate (intent domain : String) : String :=
  if intent = "research" then "Conduct comprehensive " ++ domain ++ " research and analysis"
  else if intent = "create" then "Develop and create " ++ domain ++ " deliverables and documentation"
  else if intent = "optimize" then "Analyze and optimize " ++ domain ++ " processes and performance"
  else if intent = "monitor" then "Monitor and track " ++ domain ++ " metrics and performance indicators"
  else if intent = "automate" then "Design and implement automated " ++ domain ++ " workflows and processes"
  else "Execute " ++ domain ++ " task"

/-- Scope sentence of `_generate_expanded_description`
(`scope_additions.get(intent, ...)`). -/
def descScopeAddition (intent : String) : String :=
  if intent = "research" then ". Include market analysis, competitive landscape, trend identification, and strategic recommendations with supporting data and visualizations."
  else if intent = "create" then ". Develop comprehensive documentation, strategic plans, implementation guides, and supporting materials with quality assurance."
  else if intent = "optimize" then ". Perform thorough analysis, identify improvement opportunities, design optimized processes, and create implementation roadmaps."
  else if intent = "monitor" then ". Establish monitoring frameworks, define KPIs, create dashboards, and provide regular performance reports with insights."
  else if intent = "automate" then ". Design automated workflows, implement process improvements, create monitoring systems, and provide maintenance documentation."
  else ". Provide comprehensive analysis and actionable recommendations."

/-- `_generate_expanded_description`. -/
def generate_expanded_description (input_text intent domain : String)
    (entities : Entities) : String :=
  let d0 := descBaseTemplate intent domain
  let d1 := if !entities.companies.isEmpty then
      d0 ++ " focusing on " ++ String.intercalate ", " (entities.companies.take 3)
    else d0
  let d2 := if !entities.industries.isEmpty then
      d1 ++ " within the " ++ String.intercalate ", " entities.industries ++ " sector(s)"
    else d1
  let d3 := match entities.timeframes with
    | t0 :: _ => d2 ++ " with " ++ t0 ++ " timeline considerations"
    | [] => d2
  d3 ++ descScopeAddition intent

/-- `_determine_category`: the `(intent, domain)` mapping with default
`general_analysis`. -/
def determine_category (intent domain : String) : String :=
  match ([ (("research", "business"), "market_research")
         , (("research", "technology"), "technical_analysis")
         , (("create", "marketing"), "content_creation")
         , (("create", "business"), "strategic_planning")
         , (("optimize", "operations"), "process_optimization")
         , (("monitor", "technology"), "system_monitoring") ]
      : List ((String × String) × String)).find? (fun p => p.1 = (intent, domain)) with
  | some p => p.2
  | none => "general_analysis"

/-- Urgency keyword table of `_determine_priority`, in declaration
order. -/
def urgency_keywords : List (String × List String) :=
  [ ("urgent", ["urgent", "asap", "immediately", "critical", "emergency"])
  , ("high", ["important", "priority", "soon", "quickly", "fast"])
  , ("low", ["when possible", "eventually", "low priority", "background"]) ]

/-- `_determine_priority`: first urgency level with a matched keyword,
else the intent's default priority (`medium` for unknown intents). -/
def determine_priority (input_text intent : String) : String :=
  match urgency_keywords.find? (fun p => p.2.any (fun k => pyIn k input_text)) with
  | some p => p.1
  | none =>
    match intent_patterns.find? (fun p => p.1 = intent) with
    | some p => p.2.default_priority
    | none => "medium"

/-- `_estimate_duration`. -/
def estimate_duration (intent : String) (entities : Entities) : String :=
  let base_duration := match intent_patterns.find? (fun p => p.1 = intent) with
    | some p => p.2.estimated_duration
    | none => "2-4 hours"
  let complexity_factors :=
    entities.companies.length + entities.industries.length + entities.timeframes.length
  if complexity_factors > 5 then "8-16 hours"
  else if complexity_factors > 3 then "4-8 hours"
  else base_duration

/-- Intent-to-agent table of `_select_agents`. -/
def intent_agent_mapping : List (String × List String) :=
  [ ("research", ["research_intelligence_agent"])
  , ("create", ["data_processing_specialist"])
  , ("optimize", ["execution_monitor"])
  , ("monitor", ["execution_monitor"])
  , ("automate", ["task_allocation_manager"]) ]

/-- `_select_agents`: the coordinator is always seeded first, then
domain- and intent-specific workers and conditionally QA is appended, and
the result is `list(set(...))` under the process hash `h`. -/
def select_agents (h : String → Nat) (intent domain : String)
    (entities : Entities) : List String :=
  let base_agents := ["orchestration_coordinator"]
  let base_agents := base_agents ++
    (match domain_knowledge.find? (fun p => p.1 = domain) with
     | some p => p.2.agents
     | none => [])
  let base_agents := base_agents ++
    (match intent_agent_mapping.find? (fun p => p.1 = intent) with
     | some p => p.2
     | none => [])
  let base_agents := if entities.companies.length > 0 || entities.industries.length > 0 then
      base_agents ++ ["quality_assurance_specialist"]
    else base_agents
  pySetList h base_agents

/-- Domain-specific subtasks of `_generate_subtasks`. -/
def domain_subtasks (domain : String) : List String :=
  if domain = "business" then
    [ "Market landscape analysis", "Competitive intelligence gathering"
    , "Financial and performance metrics analysis", "Strategic recommendations development" ]
  else if domain = "technology" then
    [ "Technical requirements assessment", "System architecture analysis"
    , "Performance and security evaluation", "Implementation planning and documentation" ]
  else if domain = "marketing" then
    [ "Audience and persona analysis", "Content strategy development"
    , "Channel optimization planning", "Campaign performance metrics definition" ]
  else if domain = "operations" then
    [ "Process mapping and documentation", "Efficiency bottleneck identification"
    , "Resource optimization analysis", "Implementation roadmap creation" ]
  else []

/-- `_generate_subtasks`: base plus domain-specific subtasks plus
entity-derived subtasks, truncated to 10. -/
def generate_subtasks (intent domain : String) (entities : Entities) : List String :=
  let base_subtasks :=
    [ "Initial requirements analysis and scope definition"
    , "Data collection and information gathering"
    , "Analysis and processing of collected information"
    , "Synthesis and insight generation"
    , "Quality validation and verification"
    , "Final deliverable compilation and formatting" ]
  let all_subtasks := base_subtasks ++ domain_subtasks domain
  let all_subtasks := if !entities.companies.isEmpty then
      all_subtasks ++
        ["Company-specific analysis for " ++ String.intercalate ", " (entities.companies.take 2)]
    else all_subtasks
  let all_subtasks := match entities.industries with
    | i0 :: _ => all_subtasks ++ ["Industry-specific considerations for " ++ i0]
    | [] => all_subtasks
  all_subtasks.take 10

/-- Intent-specific outputs of `_define_outputs`. -/
def intent_outputs (intent : String) : List String :=
  if intent = "research" then ["Research methodology documentation", "Data source bibliography"]
  else if intent = "create" then ["Implementation guide", "Best practices documentation"]
  else if intent = "optimize" then ["Performance improvement metrics", "ROI analysis"]
  else if intent = "monitor" then ["Monitoring dashboard", "Alert configuration guide"]
  else if intent = "automate" then ["Automation workflow documentation", "Maintenance procedures"]
  else []

/-- `_define_outputs`. -/
def define_outputs (intent domain : String) (_entities : Entities) : List String :=
  let base_outputs :=
    [ "Executive summary with key findings", "Detailed analysis report"
    , "Actionable recommendations", "Supporting data and visualizations" ]
  let dom_outputs := match domain_knowledge.find? (fun p => p.1 = domain) with
    | some p => p.2.outputs
    | none => []
  base_outputs ++ dom_outputs ++ intent_outputs intent

/-- Intent-specific success criteria of `_define_success_criteria`. -/
def intent_criteria (intent : String) : List String :=
  if intent = "research" then
    [ "Data accuracy verified and validated", "Multiple reliable sources consulted"
    , "Insights are actionable and relevant" ]
  else if intent = "create" then
    [ "Deliverables are production-ready", "All requirements implemented"
    , "User acceptance criteria met" ]
  else if intent = "optimize" then
    [ "Measurable improvement achieved", "Implementation feasibility confirmed"
    , "Cost-benefit analysis positive" ]
  else if intent = "monitor" then
    [ "Monitoring coverage is comprehensive", "Alerts are properly configured"
    , "Reporting is automated and reliable" ]
  else if intent = "automate" then
    [ "Automation reduces manual effort by >50%", "Error rates decreased"
    , "Process reliability improved" ]
  else []

/-- `_define_success_criteria`. -/
def define_success_criteria (intent _domain : String) : List String :=
  [ "All deliverables completed to specification", "Quality standards met or exceeded"
  , "Stakeholder requirements satisfied", "Documentation comprehensive and clear" ]
    ++ intent_criteria intent

/-- Domain-specific context requirements of
`_identify_context_requirements`. -/
def domain_requirements (domain : String) : List String :=
  if domain = "business" then
    ["Financial data and market reports", "Competitive intelligence sources"]
  else if domain = "technology" then
    ["Technical specifications and documentation", "System architecture details"]
  else if domain = "marketing" then
    ["Brand guidelines and messaging", "Audience data and analytics"]
  else if domain = "operations" then
    ["Process documentation and workflows", "Performance metrics and KPIs"]
  else []

/-- `_identify_context_requirements`. -/
def identify_context_requirements (domain : String) (entities : Entities) : List String :=
  let requirements :=
    [ "Access to relevant data sources and databases"
    , "Industry best practices and standards"
    , "Regulatory and compliance considerations" ]
  let requirements := if !entities.companies.isEmpty then
      requirements ++ ["Company-specific information and documentation"]
    else requirements
  let requirements := match entities.industries with
    | i0 :: _ => requirements ++ ["Industry-specific knowledge for " ++ i0]
    | [] => requirements
  requirements ++ domain_requirements domain

/-- The `TaskExpansion` dataclass. -/
structure TaskExpansion where
  original_input : String
  expanded_description : String
  category : String
  priority : String
  estimated_duration : String
  required_agents : List String
  subtasks : List String
  expected_outputs : List String
  success_criteria : List String
  context_requirements : List String
deriving DecidableEq, Repr

/-- `expand_user_input`: the full expansion pipeline. -/
def expand_user_input (h : String → Nat) (user_input : String) : TaskExpansion :=
  let cleaned_input := clean_input user_input
  let intent := detect_intent cleaned_input
  let domain := detect_domain cleaned_input
  let entities := extract_entities cleaned_input
  { original_input := user_input
    expanded_description := generate_expanded_description cleaned_input intent domain entities
    category := determine_category intent domain
    priority := determine_priority cleaned_input intent
    estimated_duration := estimate_duration intent entities
    required_agents := select_agents h intent domain entities
    subtasks := generate_subtasks intent domain entities
    expected_outputs := define_outputs intent domain entities
    success_criteria := define_success_criteria intent domain
    context_requirements := identify_context_requirements domain entities }

end IntelligentOrchestrator

/-! ## `IntelligentAgentCreator` (intelligent_agent_creator.py)

Embedding of `create_agent_from_nlp` and `create_task_from_nlp` with all
their helpers.  As above, the process hash `h` is threaded into the
helpers that call `list(set(...))` (`_select_tools`,
`_generate_specializations`, `_select_task_tools`). -/

namespace IntelligentAgentCreator

/-- One entry of `_load_agent_archetypes`. -/
structure Archetype where
  core_traits : List String
  typical_goals : List String
  backstory_elements : List String
  preferred_tools : List String
  collaboration_style : String
  reasoning : Bool
deriving DecidableEq, Repr

/-- `_load_agent_archetypes`, in declaration order. -/
def agent_archetypes : List (String × Archetype) :=
  [ ("analyst",
     { core_traits := ["analytical", "detail-oriented", "data-driven", "methodical"]
       typical_goals := ["analyze", "evaluate", "assess", "investigate", "examine"]
       backstory_elements := ["research background", "analytical experience", "data expertise"]
       preferred_tools := ["data analysis", "research", "visualization"]
       collaboration_style := "collaborative"
       reasoning := true })
  , ("creator",
     { core_traits := ["creative", "innovative", "strategic", "visionary"]
       typical_goals := ["create", "develop", "design", "build", "generate"]
       backstory_elements := ["creative background", "design experience", "innovation focus"]
       preferred_tools := ["content creation", "design", "planning"]
       collaboration_style := "independent"
       reasoning := true })
  , ("coordinator",
     { core_traits := ["organized", "strategic", "leadership", "systematic"]
       typical_goals := ["coordinate", "manage", "orchestrate", "organize", "lead"]
       backstory_elements := ["management experience", "coordination expertise", "leadership skills"]
       preferred_tools := ["project management", "communication", "planning"]
       collaboration_style := "delegative"
       reasoning := true })
  , ("specialist",
     { core_traits := ["expert", "focused", "technical", "precise"]
       typical_goals := ["optimize", "implement", "execute", "process", "deliver"]
       backstory_elements := ["specialized expertise", "technical background", "domain knowledge"]
       preferred_tools := ["specialized tools", "technical analysis", "implementation"]
       collaboration_style := "supportive"
       reasoning := false })
  , ("monitor",
     { core_traits := ["vigilant", "systematic", "reliable", "thorough"]
       typical_goals := ["monitor", "track", "observe", "report", "alert"]
       backstory_elements := ["monitoring experience", "quality focus", "reliability record"]
       preferred_tools := ["monitoring", "reporting", "analysis"]
       collaboration_style := "observant"
       reasoning := false })
  , ("quality_assurer",
     { core_traits := ["meticulous", "standards-focused", "thorough", "reliable"]
       typical_goals := ["validate", "verify", "ensure", "check", "certify"]
       backstory_elements := ["quality assurance background", "standards expertise", "validation experience"]
       preferred_tools := ["validation", "testing", "quality control"]
       collaboration_style := "supportive"
       reasoning := false }) ]

/-- One entry of `_load_role_templates`. -/
structure RoleTemplate where
  roles : List String
  goals : List String
  backstories : List String
  tools : List String
deriving DecidableEq, Repr

/-- `_load_role_templates`, in declaration order. -/
def role_templates : List (String × RoleTemplate) :=
  [ ("business",
     { roles := ["Business Analyst", "Strategy Consultant", "Market Researcher", "Business Developer"]
       goals := ["analyze market trends", "develop business strategies", "identify opportunities"]
       backstories := ["MBA background", "consulting experience", "business analysis expertise"]
       tools := ["market research", "financial analysis", "strategic planning"] })
  , ("technology",
     { roles := ["Technical Architect", "System Analyst", "DevOps Engineer", "Data Engineer"]
       goals := ["design systems", "optimize performance", "ensure reliability"]
       backstories := ["computer science background", "software engineering experience", "technical expertise"]
       tools := ["system analysis", "performance monitoring", "technical documentation"] })
  , ("marketing",
     { roles := ["Marketing Strategist", "Content Creator", "Brand Manager", "Digital Marketer"]
       goals := ["develop campaigns", "create content", "build brand awareness"]
       backstories := ["marketing background", "creative experience", "brand management expertise"]
       tools := ["content creation", "social media", "campaign management"] })
  , ("operations",
     { roles := ["Operations Manager", "Process Optimizer", "Quality Manager", "Project Coordinator"]
       goals := ["streamline processes", "ensure quality", "coordinate activities"]
       backstories := ["operations background", "process improvement experience", "quality management expertise"]
       tools := ["process mapping", "quality control", "project management"] })
  , ("research",
     { roles := ["Research Analyst", "Data Scientist", "Intelligence Specialist", "Information Architect"]
       goals := ["conduct research", "analyze data", "generate insights"]
       backstories := ["research background", "analytical experience", "data science expertise"]
       tools := ["research tools", "data analysis", "information gathering"] }) ]

/-- `_load_tool_mappings`, in declaration order. -/
def tool_mappings : List (String × List String) :=
  [ ("research", ["ArxivPaperTool", "ScrapeWebsiteTool", "FileReadTool"])
  , ("analysis", ["ScrapeElementFromWebsiteTool", "FileReadTool"])
  , ("content", ["FileReadTool", "ScrapeWebsiteTool"])
  , ("monitoring", ["FileReadTool"])
  , ("coordination", ["ScrapeWebsiteTool", "FileReadTool"])
  , ("quality", ["FileReadTool"])
  , ("data_processing", ["ScrapeElementFromWebsiteTool", "FileReadTool"])
  , ("web_scraping", ["ScrapeWebsiteTool", "ScrapeElementFromWebsiteTool"])
  , ("document_processing", ["FileReadTool"])
  , ("general", ["ScrapeWebsiteTool", "FileReadTool"]) ]

/-- One entry of `_load_expertise_domains`. -/
structure ExpertiseDomain where
  keywords : List String
  specializations : List String
  metrics : List String
deriving DecidableEq, Repr

/-- `_load_expertise_domains`, in declaration order. -/
def expertise_domains : List (String × ExpertiseDomain) :=
  [ ("business_intelligence",
     { keywords := ["business", "market", "strategy", "analysis", "intelligence"]
       specializations := ["market analysis", "competitive intelligence", "business strategy"]
       metrics := ["accuracy", "insight quality", "actionability", "timeliness"] })
  , ("data_science",
     { keywords := ["data", "analytics", "statistics", "machine learning", "insights"]
       specializations := ["data analysis", "statistical modeling", "predictive analytics"]
       metrics := ["data accuracy", "model performance", "insight generation", "processing speed"] })
  , ("content_creation",
     { keywords := ["content", "writing", "creative", "marketing", "communication"]
       specializations := ["content strategy", "copywriting", "brand messaging"]
       metrics := ["engagement", "quality", "relevance", "creativity"] })
  , ("process_optimization",
     { keywords := ["process", "optimization", "efficiency", "workflow", "improvement"]
       specializations := ["process mapping", "workflow optimization", "efficiency analysis"]
       metrics := ["efficiency gain", "cost reduction", "time savings", "quality improvement"] })
  , ("quality_assurance",
     { keywords := ["quality", "testing", "validation", "standards", "compliance"]
       specializations := ["quality control", "testing protocols", "compliance validation"]
       metrics := ["defect detection", "compliance rate", "accuracy", "thoroughness"] }) ]

/-- Stop-word set of `_extract_keywords`. -/
def stop_words : List String :=
  [ "a", "an", "and", "are", "as", "at", "be", "by", "for", "from", "has", "he"
  , "in", "is", "it", "its", "of", "on", "that", "the", "to", "was", "will", "with" ]

/-- `_extract_keywords`: word tokens longer than 2 characters that are not
stop words, capped at the first 10. -/
def extract_keywords (text : String) : List String :=
  ((wordRuns text).filter (fun w => w.length > 2 && !stop_words.contains w)).take 10

/-- Intent pattern table local to `_extract_intent`, in declaration
order. -/
def creator_intent_patterns : List (String × List String) :=
  [ ("analyze", ["analyze", "analysis", "examine", "study", "investigate", "research"])
  , ("create", ["create", "build", "develop", "generate", "produce", "make"])
  , ("manage", ["manage", "coordinate", "organize", "lead", "oversee", "direct"])
  , ("optimize", ["optimize", "improve", "enhance", "streamline", "refine"])
  , ("monitor", ["monitor", "track", "watch", "observe", "check"])
  , ("validate", ["validate", "verify", "test", "ensure", "confirm"]) ]

/-- `_extract_intent`: returns the FIRST intent (in declaration order) one
of whose patterns occurs in the text, else `general`.  Unlike
`IntelligentOrchestrator._detect_intent` there is no scoring. -/
def extract_intent (text : String) : String :=
  match creator_intent_patterns.find? (fun p => p.2.any (fun pat => pyIn pat text)) with
  | some p => p.1
  | none => "general"

/-- Domain keyword table local to `_extract_domain`. -/
def creator_domain_keywords : List (String × List String) :=
  [ ("business", ["business", "market", "sales", "revenue", "strategy", "commercial"])
  , ("technology", ["tech", "software", "system", "platform", "digital", "technical"])
  , ("marketing", ["marketing", "brand", "campaign", "content", "social", "promotion"])
  , ("operations", ["operations", "process", "workflow", "efficiency", "logistics"])
  , ("research", ["research", "data", "analysis", "insights", "intelligence", "study"]) ]

/-- `_extract_domain`: one point per matched keyword, default `general`
when all scores are zero. -/
def extract_domain (text : String) : String :=
  let domain_scores := creator_domain_keywords.map
    (fun p => (p.1, p.2.countP (fun k => pyIn k text)))
  if maxScore domain_scores > 0 then pyMaxKey domain_scores "general" else "general"

/-- Function pattern table of `_extract_functions`. -/
def function_patterns : List (String × List String) :=
  [ ("research", ["research", "gather", "collect", "find", "discover"])
  , ("analysis", ["analyze", "evaluate", "assess", "examine", "study"])
  , ("creation", ["create", "build", "develop", "generate", "produce"])
  , ("coordination", ["coordinate", "manage", "organize", "orchestrate"])
  , ("monitoring", ["monitor", "track", "observe", "watch", "check"])
  , ("quality_control", ["validate", "verify", "test", "ensure", "check"]) ]

/-- `_extract_functions`: every function with a matched pattern, else
`['general']`. -/
def extract_functions (text : String) : List String :=
  let functions := (function_patterns.filter
    (fun p => p.2.any (fun pat => pyIn pat text))).map (fun p => p.1)
  if functions.isEmpty then ["general"] else functions

/-- Trait indicator table of `_extract_traits`. -/
def trait_indicators : List (String × List String) :=
  [ ("analytical", ["analytical", "logical", "systematic", "methodical", "detailed"])
  , ("creative", ["creative", "innovative", "original", "imaginative", "artistic"])
  , ("leadership", ["leader", "manager", "coordinator", "director", "supervisor"])
  , ("technical", ["technical", "expert", "specialist", "skilled", "proficient"])
  , ("collaborative", ["team", "collaborative", "cooperative", "social", "communicative"]) ]

/-- `_extract_traits`: every trait with a matched indicator, else
`['professional']`. -/
def extract_traits (text : String) : List String :=
  let traits := (trait_indicators.filter
    (fun p => p.2.any (fun pat => pyIn pat text))).map (fun p => p.1)
  if traits.isEmpty then ["professional"] else traits

/-- Expertise keyword table of `_extract_expertise`. -/
def expertise_keywords : List (String × List String) :=
  [ ("data_analysis", ["data", "analytics", "statistics", "metrics", "insights"])
  , ("market_research", ["market", "research", "competitive", "industry", "trends"])
  , ("content_creation", ["content", "writing", "creative", "messaging", "communication"])
  , ("process_optimization", ["process", "optimization", "efficiency", "workflow", "improvement"])
  , ("project_management", ["project", "management", "coordination", "planning", "execution"])
  , ("quality_assurance", ["quality", "testing", "validation", "standards", "compliance"]) ]

/-- `_extract_expertise`: every expertise area with a matched keyword,
else `['general']`. -/
def extract_expertise (text : String) : List String :=
  let expertise := (expertise_keywords.filter
    (fun p => p.2.any (fun k => pyIn k text))).map (fun p => p.1)
  if expertise.isEmpty then ["general"] else expertise

/-- The dictionary built by `_parse_agent_input`. -/
structure ParsedAgentInput where
  raw_input : String
  cleaned_input : String
  keywords : List String
  intent : String
  domain : String
  functions : List String
  traits : List String
  expertise : List String
deriving DecidableEq, Repr

/-- `_parse_agent_input`. -/
def parse_agent_input (user_input : String) : ParsedAgentInput :=
  let cleaned_input := user_input.toLower.trim
  { raw_input := user_input
    cleaned_input := cleaned_input
    keywords := extract_keywords cleaned_input
    intent := extract_intent cleaned_input
    domain := extract_domain cleaned_input
    functions := extract_functions cleaned_input
    traits := extract_traits cleaned_input
    expertise := extract_expertise cleaned_input }

/-- `_determine_archetype` score for one archetype: +3 once if any typical
goal is a substring of the intent string, +2 per parsed function occurring
in the Python `str()` of the preferred-tools list, +2 per parsed trait
that is a member of the core-traits list. -/
def archetypeScore (cfg : Archetype) (p : ParsedAgentInput) : Nat :=
  let s1 := if cfg.typical_goals.any (fun g => pyIn g p.intent) then 3 else 0
  let s2 := s1 + 2 * p.functions.countP (fun f => pyIn f (pyReprStrList cfg.preferred_tools))
  s2 + 2 * p.traits.countP (fun t => cfg.core_traits.contains t)

/-- `_determine_archetype`: highest-scoring archetype, default
`specialist` when all scores are zero. -/
def determine_archetype (p : ParsedAgentInput) : String :=
  let archetype_scores := agent_archetypes.map (fun a => (a.1, archetypeScore a.2 p))
  if maxScore archetype_scores > 0 then pyMaxKey archetype_scores "specialist" else "specialist"

/-- Role mapping of `_generate_role_and_name`. -/
def role_mappings (intent : String) : String :=
  if intent = "analyze" then "Analyst"
  else if intent = "create" then "Creator"
  else if intent = "manage" then "Manager"
  else if intent = "optimize" then "Optimizer"
  else if intent = "monitor" then "Monitor"
  else if intent = "validate" then "Quality Specialist"
  else "Specialist"

/-- `_generate_role_and_name`: the `(role, name)` pair. -/
def generate_role_and_name (p : ParsedAgentInput) (_archetype : String) :
    String × String :=
  let base_role := role_mappings p.intent
  let role := if p.domain ≠ "general" then pyTitle p.domain ++ " " ++ base_role else base_role
  let name := role.toLower.map (fun c => if c = ' ' then '_' else c)
  (role, name)

/-- Goal template of `_generate_goal` (`goal_templates.get(intent, ...)`). -/
def goalTemplate (intent domain : String) : String :=
  if intent = "analyze" then
    "Conduct comprehensive " ++ domain ++ " analysis and provide data-driven insights"
  else if intent = "create" then
    "Develop high-quality " ++ domain ++ " deliverables and strategic solutions"
  else if intent = "manage" then
    "Coordinate and optimize " ++ domain ++ " processes and team activities"
  else if intent = "optimize" then
    "Improve " ++ domain ++ " efficiency and performance through systematic optimization"
  else if intent = "monitor" then
    "Track and monitor " ++ domain ++ " metrics and performance indicators"
  else if intent = "validate" then
    "Ensure " ++ domain ++ " quality and compliance through rigorous validation"
  else "Execute " ++ domain ++ " tasks with excellence"

/-- Archetype enhancement sentence of `_generate_goal`. -/
def archetypeEnhancement (archetype : String) : String :=
  if archetype = "analyst" then ". Utilize advanced analytical methodologies and ensure data accuracy."
  else if archetype = "creator" then ". Apply creative problem-solving and innovative approaches."
  else if archetype = "coordinator" then ". Maintain strategic oversight and ensure seamless collaboration."
  else if archetype = "specialist" then ". Leverage deep domain expertise and technical precision."
  else if archetype = "monitor" then ". Provide continuous monitoring and proactive alerting."
  else if archetype = "quality_assurer" then ". Maintain highest quality standards and compliance."
  else ". Deliver exceptional results."

/-- `_generate_goal`. -/
def generate_goal (p : ParsedAgentInput) (archetype : String) (_role : String) : String :=
  let base_goal := goalTemplate p.intent p.domain
  let relevant_keywords := (p.keywords.filter (fun kw => kw.length > 3)).take 3
  let base_goal := if !p.keywords.isEmpty && !relevant_keywords.isEmpty then
      base_goal ++ " focusing on " ++ String.intercalate ", " relevant_keywords
    else base_goal
  base_goal ++ archetypeEnhancement archetype

/-- Domain backstory template of `_generate_backstory`. -/
def backstoryTemplate (domain : String) : String :=
  if domain = "business" then "With extensive experience in business strategy and market analysis"
  else if domain = "technology" then "Having worked in technology and software development for years"
  else if domain = "marketing" then "With a background in marketing and brand management"
  else if domain = "operations" then "Specializing in operations management and process optimization"
  else if domain = "research" then "With deep expertise in research methodologies and data analysis"
  else "With professional expertise"

/-- Archetype background clause of `_generate_backstory`. -/
def archetypeBackground (archetype : String) : String :=
  if archetype = "analyst" then ", you excel at breaking down complex problems and extracting meaningful insights from data"
  else if archetype = "creator" then ", you bring innovative thinking and creative solutions to challenging problems"
  else if archetype = "coordinator" then ", you have proven leadership skills in managing complex projects and teams"
  else if archetype = "specialist" then ", you possess deep technical knowledge and hands-on experience"
  else if archetype = "monitor" then ", you have a keen eye for detail and systematic approach to tracking performance"
  else if archetype = "quality_assurer" then ", you are meticulous about quality and have extensive validation experience"
  else ", you bring professional excellence"

/-- Expertise sentence table of `_generate_backstory`. -/
def expertiseDetail (exp : String) : Option String :=
  if exp = "data_analysis" then some "Your analytical skills are complemented by advanced data science techniques"
  else if exp = "market_research" then some "You have deep understanding of market dynamics and competitive landscapes"
  else if exp = "content_creation" then some "Your creative abilities are enhanced by strategic communication expertise"
  else if exp = "process_optimization" then some "You excel at identifying inefficiencies and designing optimal workflows"
  else if exp = "project_management" then some "Your organizational skills ensure projects are delivered on time and within scope"
  else if exp = "quality_assurance" then some "Your attention to detail ensures all deliverables meet the highest standards"
  else none

/-- Trait sentence table of `_generate_backstory`. -/
def traitDescription (trait : String) : Option String :=
  if trait = "analytical" then some "Your methodical approach ensures thorough analysis"
  else if trait = "creative" then some "Your innovative mindset drives original solutions"
  else if trait = "leadership" then some "Your leadership qualities inspire team collaboration"
  else if trait = "technical" then some "Your technical precision ensures accurate implementation"
  else if trait = "collaborative" then some "Your collaborative nature enhances team dynamics"
  else none

/-- `_generate_backstory`. -/
def generate_backstory (p : ParsedAgentInput) (archetype : String) (_role : String) : String :=
  let b0 := backstoryTemplate p.domain ++ archetypeBackground archetype
  let b1 := (p.expertise.take 2).foldl (fun b exp =>
      match expertiseDetail exp with
      | some d => b ++ ". " ++ d
      | none => b) b0
  let b2 := (p.traits.take 2).foldl (fun b t =>
      match traitDescription t with
      | some d => b ++ ". " ++ d
      | none => b) b1
  b2 ++ ". You are committed to delivering exceptional results and continuous improvement."

/-- Archetype tool table of `_select_tools`. -/
def archetype_tools (archetype : String) : List String :=
  if archetype = "analyst" then ["ScrapeWebsiteTool", "FileReadTool"]
  else if archetype = "creator" then ["FileReadTool", "ScrapeWebsiteTool"]
  else if archetype = "coordinator" then ["ScrapeWebsiteTool", "FileReadTool"]
  else if archetype = "specialist" then ["ScrapeElementFromWebsiteTool", "FileReadTool"]
  else if archetype = "monitor" then ["FileReadTool"]
  else if archetype = "quality_assurer" then ["FileReadTool"]
  else []

/-- `_select_tools`: function-keyed tools, then archetype tools, default
pair when empty, deduplicated via `list(set(...))`. -/
def select_tools (h : String → Nat) (p : ParsedAgentInput) (archetype : String) :
    List String :=
  let selected_tools := p.functions.foldl (fun acc f =>
      match tool_mappings.find? (fun m => m.1 = f) with
      | some m => acc ++ m.2
      | none => acc) []
  let selected_tools := selected_tools ++ archetype_tools archetype
  let selected_tools := if selected_tools.isEmpty then
      ["ScrapeWebsiteTool", "FileReadTool"]
    else selected_tools
  pySetList h selected_tools

/-- The LLM configuration dictionary of `_determine_llm_config`.
Temperatures are the literal decimal constants of the source, embedded as
rationals. -/
structure LlmConfig where
  model : String
  temperature : Rat
  max_iter : Nat
  reasoning : Bool
  allow_delegation : Bool
deriving DecidableEq, Repr

/-- `_determine_llm_config`: the base configuration updated by the
archetype-specific overrides (which touch only `temperature`, `reasoning`
and `allow_delegation`). -/
def determine_llm_config (archetype : String) (_p : ParsedAgentInput) : LlmConfig :=
  let base : LlmConfig :=
    { model := "groq/llama-3.3-70b-versatile", temperature := 0.7, max_iter := 25
      reasoning := true, allow_delegation := true }
  if archetype = "analyst" then
    { base with temperature := 0.3, reasoning := true, allow_delegation := false }
  else if archetype = "creator" then
    { base with temperature := 0.8, reasoning := true, allow_delegation := true }
  else if archetype = "coordinator" then
    { base with temperature := 0.5, reasoning := true, allow_delegation := true }
  else if archetype = "specialist" then
    { base with temperature := 0.4, reasoning := false, allow_delegation := false }
  else if archetype = "monitor" then
    { base with temperature := 0.2, reasoning := false, allow_delegation := false }
  else if archetype = "quality_assurer" then
    { base with temperature := 0.3, reasoning := false, allow_delegation := false }
  else base

/-- Domain specialization table of `_generate_specializations`. -/
def domain_specializations (domain : String) : List String :=
  if domain = "business" then ["Strategic Planning", "Market Analysis", "Business Intelligence"]
  else if domain = "technology" then ["System Architecture", "Technical Analysis", "Performance Optimization"]
  else if domain = "marketing" then ["Brand Strategy", "Content Marketing", "Campaign Management"]
  else if domain = "operations" then ["Process Optimization", "Quality Management", "Resource Planning"]
  else if domain = "research" then ["Data Analysis", "Research Methodology", "Insight Generation"]
  else []

/-- Function specialization table of `_generate_specializations`. -/
def function_specializations (f : String) : List String :=
  if f = "research" then ["Information Gathering", "Source Validation"]
  else if f = "analysis" then ["Data Interpretation", "Pattern Recognition"]
  else if f = "creation" then ["Solution Design", "Content Development"]
  else if f = "coordination" then ["Project Management", "Team Collaboration"]
  else if f = "monitoring" then ["Performance Tracking", "Alert Management"]
  else if f = "quality_control" then ["Quality Assurance", "Compliance Validation"]
  else []

/-- `_generate_specializations`: domain, expertise-domain and
function-based specializations, `list(set(...))`-deduplicated and then
truncated to 5 (so under hash randomization even the retained SET of
elements can vary across processes; within one process it is fixed). -/
def generate_specializations (h : String → Nat) (p : ParsedAgentInput)
    (_archetype : String) : List String :=
  let specializations := domain_specializations p.domain
  let specializations := p.expertise.foldl (fun acc exp =>
      match expertise_domains.find? (fun d => d.1 = exp) with
      | some d => acc ++ d.2.specializations
      | none => acc) specializations
  let specializations := p.functions.foldl (fun acc f =>
      acc ++ function_specializations f) specializations
  (pySetList h specializations).take 5

/-- Archetype metric table of `_generate_performance_metrics`. -/
def archetype_metrics (archetype : String) : List String :=
  if archetype = "analyst" then ["Analysis Accuracy", "Insight Quality", "Data Coverage"]
  else if archetype = "creator" then ["Innovation Score", "Deliverable Quality", "Creativity Index"]
  else if archetype = "coordinator" then ["Coordination Efficiency", "Team Satisfaction", "Project Success Rate"]
  else if archetype = "specialist" then ["Technical Accuracy", "Implementation Success", "Expertise Application"]
  else if archetype = "monitor" then ["Monitoring Coverage", "Alert Accuracy", "Uptime Tracking"]
  else if archetype = "quality_assurer" then ["Defect Detection Rate", "Compliance Score", "Validation Accuracy"]
  else []

/-- `_generate_performance_metrics`. -/
def generate_performance_metrics (archetype : String)
    (_specializations : List String) : List String :=
  ["Task Completion Rate", "Quality Score", "Response Time"] ++ archetype_metrics archetype

/-- `_determine_collaboration_style`. -/
def determine_collaboration_style (archetype : String) (_p : ParsedAgentInput) : String :=
  if archetype = "analyst" then "collaborative"
  else if archetype = "creator" then "independent"
  else if archetype = "coordinator" then "leadership"
  else if archetype = "specialist" then "supportive"
  else if archetype = "monitor" then "observant"
  else if archetype = "quality_assurer" then "supportive"
  else "collaborative"

/-- `_determine_expertise_level`. -/
def determine_expertise_level (p : ParsedAgentInput) : String :=
  let expertise_indicators :=
    p.expertise.length + (p.keywords.filter (fun kw => kw.length > 5)).length
  if expertise_indicators > 5 then "expert"
  else if expertise_indicators > 3 then "advanced"
  else if expertise_indicators > 1 then "intermediate"
  else "professional"

/-- The `AgentSpecification` dataclass. -/
structure AgentSpecification where
  name : String
  role : String
  goal : String
  backstory : String
  tools : List String
  llm_model : String
  temperature : Rat
  max_iter : Nat
  reasoning : Bool
  allow_delegation : Bool
  specializations : List String
  performance_metrics : List String
  collaboration_style : String
  expertise_level : String
deriving DecidableEq, Repr

/-- `create_agent_from_nlp`: the full agent-specification pipeline. -/
def create_agent_from_nlp (h : String → Nat) (user_input : String) : AgentSpecification :=
  let parsed_input := parse_agent_input user_input
  let archetype := determine_archetype parsed_input
  let rn := generate_role_and_name parsed_input archetype
  let goal := generate_goal parsed_input archetype rn.1
  let backstory := generate_backstory parsed_input archetype rn.1
  let tools := select_tools h parsed_input archetype
  let llm_config := determine_llm_config archetype parsed_input
  let specializations := generate_specializations h parsed_input archetype
  let metrics := generate_performance_metrics archetype specializations
  { name := rn.2
    role := rn.1
    goal := goal
    backstory := backstory
    tools := tools
    llm_model := llm_config.model
    temperature := llm_config.temperature
    max_iter := llm_config.max_iter
    reasoning := llm_config.reasoning
    allow_delegation := llm_config.allow_delegation
    specializations := specializations
    performance_metrics := metrics
    collaboration_style := determine_collaboration_style archetype parsed_input
    expertise_level := determine_expertise_level parsed_input }

end IntelligentAgentCreator

/-! ### Task-specification path of `IntelligentAgentCreator` -/

namespace IntelligentAgentCreator

/-- Action pattern list of `_extract_action_words`. -/
def action_patterns : List String :=
  [ "analyze", "create", "develop", "build", "research", "investigate"
  , "optimize", "improve", "monitor", "track", "validate", "verify"
  , "generate", "produce", "design", "implement", "execute", "deliver" ]

/-- `_extract_action_words`: the fixed action words, in table order, that
occur in the text. -/
def extract_action_words (text : String) : List String :=
  action_patterns.filter (fun w => pyIn w text)

/-- `_extract_subject_matter`: first of the fixed subjects occurring in
the text, else `general`. -/
def extract_subject_matter (text : String) : String :=
  match ["market", "business", "technology", "content", "process", "data", "system"].find?
      (fun s => pyIn s text) with
  | some s => s
  | none => "general"

/-- Scope indicator table of `_extract_scope`, in declaration order. -/
def scope_indicators : List (String × List String) :=
  [ ("comprehensive", ["comprehensive", "complete", "full", "detailed", "thorough"])
  , ("focused", ["specific", "targeted", "focused", "particular"])
  , ("broad", ["broad", "wide", "extensive", "general", "overall"]) ]

/-- `_extract_scope`. -/
def extract_scope (text : String) : String :=
  match scope_indicators.find? (fun p => p.2.any (fun i => pyIn i text)) with
  | some p => p.1
  | none => "standard"

/-- Urgency indicator table of `_extract_urgency`, in declaration order
(note: no `fast`, unlike the orchestrator's table). -/
def creator_urgency_indicators : List (String × List String) :=
  [ ("urgent", ["urgent", "asap", "immediately", "critical", "emergency"])
  , ("high", ["important", "priority", "soon", "quickly"])
  , ("low", ["when possible", "eventually", "background"]) ]

/-- `_extract_urgency`. -/
def extract_urgency (text : String) : String :=
  match creator_urgency_indicators.find? (fun p => p.2.any (fun i => pyIn i text)) with
  | some p => p.1
  | none => "medium"

/-- Deliverable type table of `_extract_deliverable_type`, in declaration
order. -/
def deliverable_types : List (String × List String) :=
  [ ("report", ["report", "analysis", "summary", "findings"])
  , ("plan", ["plan", "strategy", "roadmap", "framework"])
  , ("content", ["content", "material", "copy", "text"])
  , ("data", ["data", "dataset", "metrics", "statistics"])
  , ("documentation", ["documentation", "guide", "manual", "specs"]) ]

/-- `_extract_deliverable_type`. -/
def extract_deliverable_type (text : String) : String :=
  match deliverable_types.find? (fun p => p.2.any (fun i => pyIn i text)) with
  | some p => p.1
  | none => "general"

/-- `_extract_complexity_indicators`. -/
def extract_complexity_indicators (text : String) : List String :=
  [ "complex", "comprehensive", "detailed", "thorough", "extensive"
  , "multi-faceted", "in-depth", "sophisticated", "advanced" ].filter (fun w => pyIn w text)

/-- The dictionary built by `_parse_task_input`. -/
structure ParsedTaskInput where
  raw_input : String
  cleaned_input : String
  action_words : List String
  subject_matter : String
  scope : String
  urgency : String
  deliverable_type : String
  complexity_indicators : List String
deriving DecidableEq, Repr

/-- `_parse_task_input`. -/
def parse_task_input (user_input : String) : ParsedTaskInput :=
  let cleaned_input := user_input.toLower.trim
  { raw_input := user_input
    cleaned_input := cleaned_input
    action_words := extract_action_words cleaned_input
    subject_matter := extract_subject_matter cleaned_input
    scope := extract_scope cleaned_input
    urgency := extract_urgency cleaned_input
    deliverable_type := extract_deliverable_type cleaned_input
    complexity_indicators := extract_complexity_indicators cleaned_input }

/-- `_generate_task_name`. -/
def generate_task_name (p : ParsedTaskInput) : String :=
  match p.action_words with
  | a0 :: _ =>
    if p.subject_matter ≠ "" then pyTitle a0 ++ " " ++ pyTitle p.subject_matter
    else pyTitle a0 ++ " Task"
  | [] => "Custom Task"

/-- Scope enhancement table of `_generate_task_description`. -/
def scopeEnhancement (scope : String) : Option String :=
  if scope = "comprehensive" then some " with thorough analysis and detailed documentation"
  else if scope = "focused" then some " with targeted approach and specific deliverables"
  else if scope = "broad" then some " with wide coverage and extensive research"
  else none

/-- Subject requirement table of `_generate_task_description`. -/
def subjectRequirement (subject : String) : Option String :=
  if subject = "market" then some ". Include competitive analysis, trend identification, and strategic recommendations."
  else if subject = "business" then some ". Provide business impact analysis, ROI considerations, and implementation guidance."
  else if subject = "technology" then some ". Include technical specifications, architecture considerations, and implementation details."
  else if subject = "content" then some ". Ensure brand alignment, audience targeting, and engagement optimization."
  else if subject = "process" then some ". Include efficiency analysis, optimization recommendations, and implementation roadmap."
  else if subject = "data" then some ". Provide data validation, statistical analysis, and actionable insights."
  else none

/-- `_generate_task_description`. -/
def generate_task_description (p : ParsedTaskInput) : String :=
  let base_description := "Execute " ++ p.raw_input.toLower
  let base_description := match scopeEnhancement p.scope with
    | some e => base_description ++ e
    | none => base_description
  match subjectRequirement p.subject_matter with
  | some r => base_description ++ r
  | none => base_description ++ ". Ensure high quality deliverables with actionable recommendations."

/-- `_generate_expected_output`. -/
def generate_expected_output (p : ParsedTaskInput) : String :=
  let scope := p.scope
  if p.deliverable_type = "report" then
    "A " ++ scope ++ " report with executive summary, detailed analysis, findings, and recommendations"
  else if p.deliverable_type = "plan" then
    "A " ++ scope ++ " strategic plan with objectives, timeline, resources, and implementation steps"
  else if p.deliverable_type = "content" then
    pyTitle scope ++ " content materials with supporting documentation and usage guidelines"
  else if p.deliverable_type = "data" then
    "Processed data with " ++ scope ++ " analysis, visualizations, and statistical insights"
  else if p.deliverable_type = "documentation" then
    pyTitle scope ++ " documentation with specifications, procedures, and best practices"
  else "A " ++ scope ++ " deliverable with supporting documentation and recommendations"

/-- Agent preference table of `_select_best_agent`. -/
def agent_preferences (action : String) : Option String :=
  if action = "analyze" then some "research_intelligence_agent"
  else if action = "research" then some "research_intelligence_agent"
  else if action = "create" then some "orchestration_coordinator"
  else if action = "develop" then some "orchestration_coordinator"
  else if action = "optimize" then some "data_processing_specialist"
  else if action = "monitor" then some "execution_monitor"
  else if action = "validate" then some "quality_assurance_specialist"
  else none

/-- Loop of `_select_best_agent` over the action words. -/
def selectBestAgentLoop (available_agents : List String) : List String → Option String
  | [] => none
  | action :: rest =>
    match agent_preferences action with
    | some preferred =>
      if available_agents.contains preferred then some preferred
      else selectBestAgentLoop available_agents rest
    | none => selectBestAgentLoop available_agents rest

/-- `_select_best_agent`. -/
def select_best_agent (p : ParsedTaskInput) (available_agents : List String) : String :=
  match selectBestAgentLoop available_agents p.action_words with
  | some a => a
  | none =>
    if available_agents.contains "orchestration_coordinator" then "orchestration_coordinator"
    else match available_agents with
      | a0 :: _ => a0
      | [] => "orchestration_coordinator"

/-- Subject context table of `_generate_task_context`. -/
def subjectContexts (subject : String) : List String :=
  if subject = "market" then ["Market data and industry reports", "Competitive landscape information"]
  else if subject = "business" then ["Business metrics and KPIs", "Strategic objectives and constraints"]
  else if subject = "technology" then ["Technical specifications and requirements", "System architecture and constraints"]
  else if subject = "content" then ["Brand guidelines and messaging", "Audience insights and preferences"]
  else if subject = "process" then ["Current process documentation", "Performance metrics and benchmarks"]
  else if subject = "data" then ["Data sources and quality requirements", "Analysis frameworks and methodologies"]
  else []

/-- `_generate_task_context`. -/
def generate_task_context (p : ParsedTaskInput) : List String :=
  ["Previous task outputs and learnings", "Relevant domain knowledge and best practices"]
    ++ subjectContexts p.subject_matter

/-- Action tool table of `_select_task_tools`. -/
def action_tools (action : String) : List String :=
  if action = "research" then ["ScrapeWebsiteTool", "ArxivPaperTool"]
  else if action = "analyze" then ["FileReadTool", "ScrapeElementFromWebsiteTool"]
  else if action = "create" then ["FileReadTool"]
  else if action = "monitor" then ["FileReadTool"]
  else []

/-- Subject tool table of `_select_task_tools`. -/
def subject_tools (subject : String) : List String :=
  if subject = "market" then ["ScrapeWebsiteTool", "ArxivPaperTool"]
  else if subject = "data" then ["ScrapeElementFromWebsiteTool", "FileReadTool"]
  else if subject = "content" then ["FileReadTool", "ScrapeWebsiteTool"]
  else []

/-- `_select_task_tools`. -/
def select_task_tools (h : String → Nat) (p : ParsedTaskInput) : List String :=
  let tools := p.action_words.foldl (fun acc a => acc ++ action_tools a) []
  let tools := tools ++ subject_tools p.subject_matter
  let tools := if tools.isEmpty then ["FileReadTool", "ScrapeWebsiteTool"] else tools
  pySetList h tools

/-- `_determine_task_priority`. -/
def determine_task_priority (p : ParsedTaskInput) : String :=
  if p.urgency = "urgent" then "urgent"
  else if p.urgency = "high" || p.complexity_indicators.length > 2 then "high"
  else if p.urgency = "low" then "low"
  else "medium"

/-- `_determine_task_complexity`. -/
def determine_task_complexity (p : ParsedTaskInput) : String :=
  let complexity_score := p.complexity_indicators.length + p.action_words.length
  let complexity_score := if p.scope = "comprehensive" then complexity_score + 2
    else if p.scope = "broad" then complexity_score + 1
    else complexity_score
  if complexity_score > 5 then "high"
  else if complexity_score > 3 then "medium"
  else "low"

/-- Type-specific success criteria of `_generate_success_criteria`. -/
def typeCriteria (deliverable : String) : List String :=
  if deliverable = "report" then
    ["Data accuracy verified", "Insights are actionable", "Recommendations are feasible"]
  else if deliverable = "plan" then
    ["Objectives are clear and measurable", "Timeline is realistic", "Resources are identified"]
  else if deliverable = "content" then
    ["Brand guidelines followed", "Audience engagement optimized", "Message clarity achieved"]
  else if deliverable = "data" then
    ["Data quality validated", "Analysis methodology sound", "Results are reproducible"]
  else if deliverable = "documentation" then
    ["Information is complete", "Procedures are clear", "Standards are met"]
  else []

/-- `_generate_success_criteria`. -/
def generate_success_criteria (p : ParsedTaskInput) : List String :=
  [ "All requirements met and deliverables completed"
  , "Quality standards achieved and validated"
  , "Stakeholder expectations satisfied" ] ++ typeCriteria p.deliverable_type

/-- Type-specific deliverables of `_generate_deliverables`. -/
def typeDeliverables (deliverable : String) : Option (List String) :=
  if deliverable = "report" then
    some ["Executive summary", "Detailed analysis report", "Supporting data and charts", "Recommendations document"]
  else if deliverable = "plan" then
    some ["Strategic plan document", "Implementation timeline", "Resource requirements", "Risk assessment"]
  else if deliverable = "content" then
    some ["Content materials", "Style guide", "Usage instructions", "Performance metrics"]
  else if deliverable = "data" then
    some ["Processed dataset", "Analysis results", "Visualizations", "Methodology documentation"]
  else if deliverable = "documentation" then
    some ["Technical documentation", "User guide", "Best practices", "Maintenance procedures"]
  else none

/-- `_generate_deliverables`. -/
def generate_deliverables (p : ParsedTaskInput) : List String :=
  match typeDeliverables p.deliverable_type with
  | some d => d
  | none => ["Primary deliverable as specified"]

/-- Subject dependency table of `_identify_dependencies`. -/
def subjectDependencies (subject : String) : List String :=
  if subject = "market" then ["Market data access", "Industry reports", "Competitive intelligence"]
  else if subject = "business" then ["Business metrics", "Strategic objectives", "Financial data"]
  else if subject = "technology" then ["Technical specifications", "System access", "Architecture documentation"]
  else if subject = "content" then ["Brand guidelines", "Audience data", "Content standards"]
  else if subject = "process" then ["Process documentation", "Performance data", "Stakeholder interviews"]
  else if subject = "data" then ["Data sources", "Analysis tools", "Quality standards"]
  else []

/-- `_identify_dependencies`. -/
def identify_dependencies (p : ParsedTaskInput) : List String :=
  ["Access to relevant data sources", "Stakeholder input and requirements"]
    ++ subjectDependencies p.subject_matter

/-- The `TaskSpecification` dataclass. -/
structure TaskSpecification where
  name : String
  description : String
  expected_output : String
  agent : String
  context : List String
  tools : List String
  priority : String
  complexity : String
  success_criteria : List String
  deliverables : List String
  dependencies : List String
deriving DecidableEq, Repr

/-- `create_task_from_nlp`: the full task-specification pipeline. -/
def create_task_from_nlp (h : String → Nat) (user_input : String)
    (available_agents : List String) : TaskSpecification :=
  let parsed_input := parse_task_input user_input
  { name := generate_task_name parsed_input
    description := generate_task_description parsed_input
    expected_output := generate_expected_output parsed_input
    agent := select_best_agent parsed_input available_agents
    context := generate_task_context parsed_input
    tools := select_task_tools h parsed_input
    priority := determine_task_priority parsed_input
    complexity := determine_task_complexity parsed_input
    success_criteria := generate_success_criteria parsed_input
    deliverables := generate_deliverables parsed_input
    dependencies := identify_dependencies parsed_input }

end IntelligentAgentCreator

/-! ## Task lifecycle engine (`api.py`)

State-machine embedding of `create_task`, `log_execution` and
`execute_crew_task`.  A system state holds the single task's record
(`active_tasks[task_id]` merged with `task_results[task_id]`, which
`get_task` surfaces through the `result` field), its event log
(`execution_logs[task_id]`) and the worker registry (`agent_statuses`).
Time is the count of executed primitive operations; log entries are
timestamped with it.

The primitive operations mirror the statements of the source: the two
modeled executions are the deterministic operation sequences performed by
`create_task` followed by `execute_crew_task`, with the background
`simulate_agent_activities` coroutine contributing a prefix of `k` of its
ten narration events before the executor call returns (the `await`
interleaving determines `k`; it is quantified over).  The failure trace
models an executor (`run_crew`) exception, per the failure path of the
source's `except` block. -/

namespace ApiModel

/-- `TaskResponse.status` values. -/
inductive TStatus
  | created
  | running
  | completed
  | failed
deriving DecidableEq, Repr

/-- One `ExecutionLog` entry; `level` is the `status` parameter of
`log_execution`. -/
structure LogEntry where
  timestamp : Nat
  agent : String
  action : String
  message : String
  level : String
deriving DecidableEq, Repr

/-- The task record: `active_tasks[task_id]` with `result` modelling the
`task_results[task_id]` entry that `get_task` copies into the snapshot.
The record has no separate error field; the source stores the failure text
in `task_results` as well. -/
structure TaskRec where
  status : TStatus
  progress : Nat
  log : List LogEntry
  result : Option String
  completedAt : Option Nat
  currentAgent : Option String
  currentStep : Option String
deriving DecidableEq, Repr

/-- One `AgentStatus` entry of the worker registry. -/
structure Worker where
  name : String
  role : String
  wstatus : String
  currentTask : Option String
  lastActivity : Option Nat
  completedCount : Nat
deriving DecidableEq, Repr

/-- Whole-system state for a single task execution. -/
structure SysState where
  task : TaskRec
  workers : List Worker
  now : Nat
deriving DecidableEq, Repr

/-- The six workers installed by `initialize_agents`, all `ready`. -/
def initWorkers : List Worker :=
  [ ("orchestration_coordinator", "Orchestration Coordinator")
  , ("task_allocation_manager", "Task Allocation Manager")
  , ("research_intelligence_agent", "Research Intelligence Agent")
  , ("data_processing_specialist", "Data Processing Specialist")
  , ("execution_monitor", "Execution Monitor")
  , ("quality_assurance_specialist", "Quality Assurance Specialist") ].map
    (fun p => { name := p.1, role := p.2, wstatus := "ready", currentTask := none
                lastActivity := none, completedCount := 0 })

/-- State right after `create_task` constructs the `TaskResponse`
(status `created`, empty log, progress 0), before its `log_execution`
call. -/
def initState : SysState :=
  { task := { status := .created, progress := 0, log := [], result := none
              completedAt := none, currentAgent := none, currentStep := none }
    workers := initWorkers
    now := 0 }

/-- Primitive state mutations, one per mutating statement of the
source. -/
inductive Op
  | logExec (agent action message level : String)
  | setStatus (st : TStatus)
  | setProgress (p : Nat)
  | setResult (r : String)
  | setCompletedAt
  | resetWorkers
deriving DecidableEq, Repr

/-- The progress formula of `log_execution`:
`int(min(95, (current_steps / total_expected_steps) * 100))` with
`total_expected_steps = 20`.  The source computes in IEEE-754 doubles; for
every natural `n` the truncated float value coincides with the natural
number `min 95 (n * 100 / 20)` (the two roundings stay within half an ulp
of the exact value `5 n` for every `n ≤ 18`, and the value is at least 95
for every `n ≥ 19`). -/
def progressFormula (n : Nat) : Nat := min 95 (n * 100 / 20)

/-- Worker-registry update performed by `log_execution` for the logging
agent (skipped for `"system"`): refresh `lastActivity`, set `busy` exactly
when the level is `running`, and bump the completion counter on a
`task_completed` action. -/
def updateWorker (agent action level : String) (now : Nat) (w : Worker) : Worker :=
  if w.name = agent ∧ agent ≠ "system" then
    { w with
      lastActivity := some now
      wstatus := if level = "running" then "busy" else "ready"
      completedCount := if action = "task_completed" then w.completedCount + 1
        else w.completedCount }
  else w

/-- Apply one primitive operation; `logExec` is the body of
`log_execution` (append entry, set current agent/step, recompute progress
from the new log length, update the named worker). -/
def applyOp (s : SysState) : Op → SysState
  | .logExec agent action message level =>
    let entry : LogEntry :=
      { timestamp := s.now, agent := agent, action := action
        message := message, level := level }
    let log := s.task.log ++ [entry]
    { task := { s.task with
        log := log
        currentAgent := some agent
        currentStep := some action
        progress := progressFormula log.length }
      workers := s.workers.map (updateWorker agent action level s.now)
      now := s.now + 1 }
  | .setStatus st => { s with task := { s.task with status := st }, now := s.now + 1 }
  | .setProgress p => { s with task := { s.task with progress := p }, now := s.now + 1 }
  | .setResult r => { s with task := { s.task with result := some r }, now := s.now + 1 }
  | .setCompletedAt =>
    { s with task := { s.task with completedAt := some s.now }, now := s.now + 1 }
  | .resetWorkers =>
    { s with
      workers := s.workers.map (fun w => { w with wstatus := "ready", currentTask := none })
      now := s.now + 1 }

/-- Run a sequence of operations. -/
def runOps (s : SysState) (ops : List Op) : SysState := ops.foldl applyOp s

/-- All states visited while running a sequence of operations (including
the initial and final states). -/
def runTrace (s : SysState) : List Op → List SysState
  | [] => [s]
  | op :: ops => s :: runTrace (applyOp s op) ops

/-- The `log_execution` call inside `create_task`. -/
def createOp (desc : String) : Op :=
  .logExec "system" "task_created" ("Task created: " ++ desc) "info"

/-- The log operations of `execute_crew_task` between the `running`
transition and the executor call: start/initialization logs and the fixed
pre-execution narration. -/
def preLogs (desc : String) : List Op :=
  [ .logExec "system" "task_started" ("Starting task execution: " ++ desc) "running"
  , .logExec "system" "crew_initialization" "Initializing AI Agent Orchestration Hub" "running"
  , .logExec "orchestration_coordinator" "strategy_analysis"
      "Analyzing task requirements and creating orchestration strategy" "running"
  , .logExec "orchestration_coordinator" "agent_selection"
      "Selecting optimal agents for task execution" "running"
  , .logExec "task_allocation_manager" "resource_allocation"
      "Allocating computational resources and task priorities" "running"
  , .logExec "system" "crew_execution" "Starting multi-agent collaboration" "running" ]

/-- The deterministic operations of `execute_crew_task` up to the executor
call: the `running` transition followed by `preLogs`. -/
def preOps (desc : String) : List Op :=
  Op.setStatus .running :: preLogs desc

/-- The ten narration events of `simulate_agent_activities`, in order. -/
def simActivities : List (String × String × String) :=
  [ ("research_intelligence_agent", "data_gathering", "Collecting information from academic sources and web resources")
  , ("research_intelligence_agent", "source_analysis", "Analyzing and validating information sources")
  , ("data_processing_specialist", "data_processing", "Processing and structuring collected data")
  , ("data_processing_specialist", "quality_check", "Performing data quality validation")
  , ("execution_monitor", "progress_tracking", "Monitoring task execution progress")
  , ("execution_monitor", "performance_analysis", "Analyzing agent performance metrics")
  , ("quality_assurance_specialist", "output_validation", "Validating intermediate outputs")
  , ("quality_assurance_specialist", "compliance_check", "Ensuring quality standards compliance")
  , ("orchestration_coordinator", "coordination", "Coordinating agent interactions and workflow")
  , ("task_allocation_manager", "load_balancing", "Optimizing task distribution and resource usage") ]

/-- The first `k` background narration events (those emitted before the
executor call returns or raises). -/
def simOps (k : Nat) : List Op :=
  (simActivities.take k).map (fun t => .logExec t.1 t.2.1 t.2.2 "running")

/-- The remaining narration events after the first `k`.  On the failure
path `simulation_task.cancel()` (line 575) is never reached — the
exception raised at the line-572 `await` jumps straight to the `except`
block — so the uncancelled `simulate_agent_activities` coroutine keeps
appending these events after the task has failed. -/
def simOpsTail (k : Nat) : List Op :=
  (simActivities.drop k).map (fun t => .logExec t.1 t.2.1 t.2.2 "running")

/-- The operations of the success path after the executor returns
`res`: final narration, store result, terminal transition (status,
completion time, progress 100), the post-terminal `task_completed` log,
and the worker reset. -/
def completeOps (res : String) : List Op :=
  [ .logExec "quality_assurance_specialist" "final_validation"
      "Performing final quality validation" "running"
  , .logExec "system" "result_compilation" "Compiling final results" "running"
  , .setResult res
  , .setStatus .completed
  , .setCompletedAt
  , .setProgress 100
  , .logExec "system" "task_completed"
      ("Task completed successfully. Result length: " ++ toString res.length ++ " characters")
      "completed"
  , .resetWorkers ]

/-- The operations of the `except` block after the executor raises
`emsg`: terminal transition (status, progress 0), store the error text in
`task_results`, the post-terminal `error` log, and the worker reset. -/
def failOps (emsg : String) : List Op :=
  [ .setStatus .failed
  , .setProgress 0
  , .setResult ("Error: " ++ emsg)
  , .logExec "system" "error" ("Task execution failed: " ++ emsg) "error"
  , .resetWorkers ]

/-- Full operation sequence of a successful execution with `k` background
narration events. -/
def completedProgram (desc res : String) (k : Nat) : List Op :=
  createOp desc :: (preOps desc ++ simOps k ++ completeOps res)

/-- Full operation sequence of a failed execution: the executor raised
`emsg` after `k` background narration events.  Because the exception
skips `simulation_task.cancel()`, the remaining `10 - k` narration events
are still appended after the terminal transition; the model serializes
them after the `except` block (narration events racing the short `except`
block would change only the relative order of the post-terminal appends,
not the quiescent final state's status, result, completion time or
progress). -/
def failedProgram (desc emsg : String) (k : Nat) : List Op :=
  createOp desc :: (preOps desc ++ simOps k ++ failOps emsg ++ simOpsTail k)

end ApiModel

/-! ## Serverless task handler (`api/tasks.py`) -/

namespace ServerlessApi

/-- The task dictionary built by the serverless `create_task` and then
mutated by `do_POST` before responding (status `running`, progress 10,
a `task_started` log appended). -/
structure STask where
  status : String
  description : String
  completed_at : Option String
  result : Option String
  execution_log : List (String × String × String × String)
  current_agent : Option String
  current_step : Option String
  progress : Nat
deriving DecidableEq, Repr

/-- `handler.do_POST` on `/api/tasks`: Python rejects with HTTP 400 when
`not description` (the empty string), BEFORE `create_task` runs — so no
task id is issued and nothing is stored; otherwise it creates the record,
flips it to `running` with progress 10 and appends the start event. -/
def tasksPost (description : String) : Option STask :=
  if description = "" then none
  else some
    { status := "running"
      description := description
      completed_at := none
      result := none
      execution_log :=
        [ ("system", "task_created", "Task created: " ++ description, "info")
        , ("orchestration_coordinator", "task_started", "Starting task analysis", "info") ]
      current_agent := some "orchestration_coordinator"
      current_step := some "Analyzing task requirements"
      progress := 10 }

end ServerlessApi

/-! ## WebSocket broadcaster (`broadcast_message` in `api.py`)

`broadcast_message` iterates over a copy of `connected_clients`, attempts
one `send_text` per client, collects the clients whose send raised, and
afterwards removes each collected client (first occurrence, guarded by a
membership test) from the live list.  Clients are abstract; `ok c` says
whether delivery to `c` succeeds during this publish call. -/

namespace Broadcaster

/-- Python `list.remove`: drop the first occurrence. -/
def pyListRemove {α : Type} [DecidableEq α] (x : α) : List α → List α
  | [] => []
  | y :: t => if y = x then t else y :: pyListRemove x t

/-- The fan-out loop over the copy of the client list: returns the clients
that received the message (in iteration order) and the `disconnected`
list. -/
def broadcastLoop {α : Type} (ok : α → Bool) : List α → List α × List α
  | [] => ([], [])
  | c :: t =>
    let (sent, disc) := broadcastLoop ok t
    if ok c then (c :: sent, disc) else (sent, c :: disc)

/-- The removal loop: for each disconnected client in order, remove it
from the live list if still present. -/
def removeDisconnected {α : Type} [DecidableEq α] : List α → List α → List α
  | [], clients => clients
  | c :: d, clients =>
    removeDisconnected d (if clients.contains c then pyListRemove c clients else clients)

/-- `broadcast_message`: the delivered clients and the post-publish
subscriber list. -/
def broadcast_message {α : Type} [DecidableEq α] (ok : α → Bool)
    (clients : List α) : List α × List α :=
  let (sent, disc) := broadcastLoop ok clients
  (sent, removeDisconnected disc clients)

end Broadcaster

/-! ## Spec-side intent classification

Definitions written from the specification's words, for comparison with
the source-side classifiers: "score = 3×(count of matched primary
keywords) + 2×(count of matched secondary indicator words); pick the
argmax; ties break by declaration order; if all scores are 0, default to a
designated fallback intent". -/

namespace SpecSide

/-- The spec's scoring rule for one candidate intent. -/
def intentScoreSpec (keywords indicators : List String) (text : String) : Nat :=
  3 * keywords.countP (fun k => pyIn k text) + 2 * indicators.countP (fun k => pyIn k text)

/-- Argmax with ties broken by declaration order: the first candidate
whose score is greater than or equal to every score. -/
def firstArgmax (scores : List (String × Nat)) (fallback : String) : String :=
  match scores.find? (fun p => scores.all (fun q => q.2 ≤ p.2)) with
  | some p => p.1
  | none => fallback

/-- The spec's intent classifier for the task-expansion path: scored
argmax over the orchestrator's candidate table, fallback `research`
exactly when all scores are zero. -/
def detect_intent_spec (text : String) : String :=
  let scores := IntelligentOrchestrator.intent_patterns.map
    (fun p => (p.1, intentScoreSpec p.2.keywords p.2.indicators text))
  if scores.all (fun p => p.2 = 0) then "research" else firstArgmax scores "research"

/-- The spec's intent classifier for the agent-expansion path, as the
claim states it: scored argmax (the creator's table has no secondary
indicator lists, so scores are 3 per matched pattern), fallback `general`
exactly when all scores are zero. -/
def creator_intent_scored_spec (text : String) : String :=
  let scores := IntelligentAgentCreator.creator_intent_patterns.map
    (fun p => (p.1, intentScoreSpec p.2 [] text))
  if scores.all (fun p => p.2 = 0) then "general" else firstArgmax scores "general"

/-- What the agent-expansion path actually implements, stated
declaratively: the first intent in declaration order with a positive
match count, fallback `general` when none matches. -/
def extract_intent_first_match_spec (text : String) : String :=
  match IntelligentAgentCreator.creator_intent_patterns.find?
      (fun p => 0 < p.2.countP (fun pat => pyIn pat text)) with
  | some p => p.1
  | none => "general"

end SpecSide

/-- The fold of `pyMaxKey`. -/
def foldBest (p : String × Nat) (t : List (String × Nat)) : String × Nat :=
  t.foldl (fun best q => if q.2 > best.2 then q else best) p

/-! ## Invariants of the task lifecycle engine -/

namespace ApiModel

/-- Progress invariant: in every non-terminal state the progress equals
the `log_execution` formula applied to the current log length. -/
def Good (s : SysState) : Prop :=
  s.task.status = .created ∨ s.task.status = .running →
    s.task.progress = progressFormula s.task.log.length

/-- Progress 100 occurs only in `completed` states. -/
def Prog100 (s : SysState) : Prop :=
  s.task.progress = 100 → s.task.status = .completed

/-- The per-step monotonicity relation: progress does not decrease across
a step both of whose endpoint states are `running`. -/
def MonoR (a b : SysState) : Prop :=
  a.task.status = .running → b.task.status = .running →
    a.task.progress ≤ b.task.progress

/-- Completion-time relation: `completedAt` changes across a step only if
it was previously unset. -/
def CAOnce (a b : SysState) : Prop :=
  a.task.completedAt = none ∨ b.task.completedAt = a.task.completedAt

/-- Per-step side conditions under which one operation preserves the
invariants, matching how the operations are used by the source: the
`running` (and hypothetical `created`) transitions fire only from
non-terminal states, direct progress writes happen only in terminal
states ever (and write 100 only in `completed`), `failed` is entered only
from a non-terminal state, and the completion time is written only when
still unset. -/
def StepOk (s : SysState) : Op → Prop
  | .setStatus .running => s.task.status = .created ∨ s.task.status = .running
  | .setStatus .created => False
  | .setStatus .failed => s.task.status = .created ∨ s.task.status = .running
  | .setStatus .completed => True
  | .setProgress p =>
    (s.task.status ≠ .created ∧ s.task.status ≠ .running)
      ∧ (p = 100 → s.task.status = .completed)
  | .setCompletedAt => s.task.completedAt = none
  | _ => True

/-- Sequential side conditions along a whole operation sequence. -/
def StepsOk : SysState → List Op → Prop
  | _, [] => True
  | s, op :: ops => StepOk s op ∧ StepsOk (applyOp s op) ops

/-- Operations whose side condition is trivially true in every state. -/
def alwaysOk : Op → Prop
  | .logExec _ _ _ _ => True
  | .setStatus .completed => True
  | .setResult _ => True
  | .resetWorkers => True
  | _ => False

/-- Number of log entries appended by one operation. -/
def logDelta : Op → Nat
  | .logExec _ _ _ _ => 1
  | _ => 0

end ApiModel

/-! ## Lemmas: scoring and argmax -/

theorem foldl_score_eq (p : String → Bool) (c : Nat) :
    ∀ (l : List String) (a : Nat),
      l.foldl (fun sc k => if p k then sc + c else sc) a = a + c * l.countP p := by
  intro l
  induction l with
  | nil => intro a; simp
  | cons x t ih =>
    intro a
    simp only [List.foldl_cons, List.countP_cons, ih]
    by_cases hx : p x <;> simp [hx] <;> try ring

theorem foldl_max_eq_zero_iff :
    ∀ (l : List Nat) (a : Nat), l.foldl Nat.max a = 0 ↔ a = 0 ∧ ∀ x ∈ l, x = 0 := by
  intro l
  induction l with
  | nil => intro a; simp
  | cons x t ih =>
    intro a
    simp only [List.foldl_cons, ih, List.mem_cons]
    constructor
    · rintro ⟨hmax, hall⟩
      rcases Nat.max_eq_zero_iff.mp hmax with ⟨ha, hx⟩
      exact ⟨ha, fun y hy => hy.elim (fun e => e ▸ hx) (hall y)⟩
    · rintro ⟨ha, hall⟩
      exact ⟨Nat.max_eq_zero_iff.mpr ⟨ha, hall x (Or.inl rfl)⟩,
        fun y hy => hall y (Or.inr hy)⟩

theorem maxScore_pos_iff (scores : List (String × Nat)) :
    maxScore scores > 0 ↔ ¬ scores.all (fun p => decide (p.2 = 0)) := by
  unfold maxScore
  simp only [gt_iff_lt]
  rw [Nat.pos_iff_ne_zero]
  constructor
  · intro hne hall
    apply hne
    rw [foldl_max_eq_zero_iff]
    refine ⟨rfl, ?_⟩
    intro x hx
    rcases List.mem_map.mp hx with ⟨q, hq, rfl⟩
    simpa using List.all_eq_true.mp hall q hq
  · intro hnall h0
    apply hnall
    rw [foldl_max_eq_zero_iff] at h0
    rw [List.all_eq_true]
    intro q hq
    simpa using h0.2 q.2 (List.mem_map.mpr ⟨q, hq, rfl⟩)

theorem find?_pred_ext {α : Type} (l : List α) (p q : α → Bool)
    (h : ∀ a, p a = q a) : l.find? p = l.find? q := by
  have : p = q := funext h
  rw [this]

theorem foldBest_eq_firstMax :
    ∀ (t : List (String × Nat)) (p : String × Nat),
      (p :: t).find? (fun r => (p :: t).all (fun q => decide (q.2 ≤ r.2)))
        = some (foldBest p t) := by
  intro t
  induction t with
  | nil =>
    intro p
    simp [foldBest, List.find?]
  | cons q t' ih =>
    intro p
    by_cases hpq : q.2 > p.2
    · have hfold : foldBest p (q :: t') = foldBest q t' := by
        simp [foldBest, hpq]
      rw [hfold]
      have hext : ∀ r : String × Nat,
          ((p :: q :: t').all (fun x => decide (x.2 ≤ r.2)))
            = ((q :: t').all (fun x => decide (x.2 ≤ r.2))) := by
        intro r
        simp only [List.all_cons, Bool.and_eq_true, decide_eq_true_eq]
        by_cases h1 : q.2 ≤ r.2
        · have h2 : p.2 ≤ r.2 := le_trans (le_of_lt hpq) h1
          simp [h1, h2]
        · simp [h1]
      rw [find?_pred_ext _ _ _ hext]
      have hp : ((q :: t').all (fun x => decide (x.2 ≤ p.2))) = false := by
        simp only [List.all_cons, Bool.and_eq_true, decide_eq_true_eq]
        simp only [Bool.and_eq_false_iff]
        left
        simpa using Nat.not_le.mpr hpq
      rw [List.find?_cons, hp]
      exact ih q
    · have hqp : q.2 ≤ p.2 := Nat.not_lt.mp hpq
      have hfold : foldBest p (q :: t') = foldBest p t' := by
        simp [foldBest, hpq]
      rw [hfold]
      have hext : ∀ r : String × Nat,
          ((p :: q :: t').all (fun x => decide (x.2 ≤ r.2)))
            = ((p :: t').all (fun x => decide (x.2 ≤ r.2))) := by
        intro r
        simp only [List.all_cons, Bool.and_eq_true, decide_eq_true_eq]
        by_cases h1 : p.2 ≤ r.2
        · have h2 : q.2 ≤ r.2 := le_trans hqp h1
          simp [h1, h2]
        · simp [h1]
      rw [find?_pred_ext _ _ _ hext]
      by_cases hPp : ((p :: t').all (fun x => decide (x.2 ≤ p.2))) = true
      · rw [List.find?_cons, hPp]
        have := ih p
        rw [List.find?_cons, hPp] at this
        exact this
      · have hPp' := Bool.eq_false_iff.mpr hPp
        rw [List.find?_cons, hPp']
        have hPq : ((p :: t').all (fun x => decide (x.2 ≤ q.2))) = false := by
          rcases Bool.eq_false_iff.mp hPp' with _
          by_contra hq
          apply hPp
          have hq' : ((p :: t').all (fun x => decide (x.2 ≤ q.2))) = true := by
            revert hq
            cases ((p :: t').all (fun x => decide (x.2 ≤ q.2))) <;> simp
          rw [List.all_eq_true] at hq' ⊢
          intro x hx
          have := hq' x hx
          simp only [decide_eq_true_eq] at this ⊢
          exact le_trans this hqp
        rw [List.find?_cons, hPq]
        have := ih p
        rw [List.find?_cons, hPp'] at this
        exact this

theorem pyMaxKey_eq_firstArgmax (p : String × Nat) (t : List (String × Nat))
    (fb fb' : String) :
    pyMaxKey (p :: t) fb = SpecSide.firstArgmax (p :: t) fb' := by
  unfold pyMaxKey SpecSide.firstArgmax
  rw [foldBest_eq_firstMax t p]
  rfl

theorem intentScore_eq_spec (cfg : IntelligentOrchestrator.IntentConfig) (text : String) :
    IntelligentOrchestrator.intentScore cfg text
      = SpecSide.intentScoreSpec cfg.keywords cfg.indicators text := by
  unfold IntelligentOrchestrator.intentScore SpecSide.intentScoreSpec
  rw [foldl_score_eq, foldl_score_eq]
  ring

theorem any_iff_countP_pos (l : List String) (p : String → Bool) :
    l.any p = true ↔ 0 < l.countP p := by
  rw [List.any_eq_true, List.countP_pos_iff]

/-! ## Lemmas: `pySetList` membership -/

theorem mem_insertByHash (h : String → Nat) (x y : String) :
    ∀ l : List String, (y ∈ insertByHash h x l ↔ y = x ∨ y ∈ l) := by
  intro l
  induction l with
  | nil => simp [insertByHash]
  | cons z t ih =>
    by_cases hc : h x ≤ h z
    · simp [insertByHash, hc]
    · simp only [insertByHash, hc, if_false, List.mem_cons, ih]
      tauto

theorem mem_sortByHash (h : String → Nat) (y : String) :
    ∀ l : List String, (y ∈ sortByHash h l ↔ y ∈ l) := by
  intro l
  induction l with
  | nil => simp [sortByHash]
  | cons z t ih =>
    simp only [sortByHash, mem_insertByHash, ih, List.mem_cons]

theorem mem_dedupFirst (y : String) :
    ∀ l : List String, (y ∈ dedupFirst l ↔ y ∈ l) := by
  intro l
  induction l with
  | nil => simp [dedupFirst]
  | cons z t ih =>
    simp only [dedupFirst, List.mem_cons, List.mem_filter, ih, ne_eq, decide_not,
      Bool.not_eq_false', decide_eq_true_eq]
    by_cases hy : y = z
    · simp [hy]
    · simp [hy]

theorem mem_pySetList (h : String → Nat) (y : String) (l : List String) :
    y ∈ pySetList h l ↔ y ∈ l := by
  unfold pySetList
  rw [mem_sortByHash, mem_dedupFirst]

/-! ## Lemmas: broadcaster -/

theorem broadcastLoop_eq {α : Type} (ok : α → Bool) :
    ∀ clients : List α,
      Broadcaster.broadcastLoop ok clients
        = (clients.filter ok, clients.filter (fun c => !ok c)) := by
  intro clients
  induction clients with
  | nil => simp [Broadcaster.broadcastLoop]
  | cons c t ih =>
    by_cases hc : ok c
    · simp [Broadcaster.broadcastLoop, ih, hc, List.filter_cons]
    · simp [Broadcaster.broadcastLoop, ih, hc, List.filter_cons]

theorem pyListRemove_cons_ne {α : Type} [DecidableEq α] (x c : α) (l : List α)
    (h : c ≠ x) : Broadcaster.pyListRemove x (c :: l) = c :: Broadcaster.pyListRemove x l := by
  simp [Broadcaster.pyListRemove, h]

theorem removeDisconnected_cons_not_mem {α : Type} [DecidableEq α] (c : α) :
    ∀ (d l : List α), (∀ x ∈ d, x ≠ c) →
      Broadcaster.removeDisconnected d (c :: l) = c :: Broadcaster.removeDisconnected d l := by
  intro d
  induction d with
  | nil => intro l _; rfl
  | cons x d' ih =>
    intro l hd
    have hxc : x ≠ c := hd x (List.mem_cons_self x d')
    have hcont : (c :: l).contains x = l.contains x := by
      simp [List.contains_cons, hxc]
    have hrem : Broadcaster.pyListRemove x (c :: l) = c :: Broadcaster.pyListRemove x l := by
      have hcx : c ≠ x := fun e => hxc e.symm
      simp [Broadcaster.pyListRemove, hcx]
    show Broadcaster.removeDisconnected d'
        (if (c :: l).contains x then Broadcaster.pyListRemove x (c :: l) else c :: l)
      = c :: Broadcaster.removeDisconnected d' (if l.contains x then Broadcaster.pyListRemove x l else l)
    rw [hcont, hrem]
    rw [show (if l.contains x then c :: Broadcaster.pyListRemove x l else c :: l)
        = c :: (if l.contains x then Broadcaster.pyListRemove x l else l) from
      (apply_ite (fun t => c :: t) (l.contains x = true) _ _).symm]
    exact ih _ (fun y hy => hd y (List.mem_cons_of_mem _ hy))

theorem removeDisconnected_filter {α : Type} [DecidableEq α] (ok : α → Bool) :
    ∀ l : List α,
      Broadcaster.removeDisconnected (l.filter (fun c => !ok c)) l = l.filter ok := by
  intro l
  induction l with
  | nil => rfl
  | cons c t ih =>
    by_cases hc : ok c
    · have hfilter : (c :: t).filter (fun x => !ok x) = t.filter (fun x => !ok x) := by
        simp [List.filter_cons, hc]
      rw [hfilter]
      have hne : ∀ x ∈ t.filter (fun y => !ok y), x ≠ c := by
        intro x hx he
        rcases List.mem_filter.mp hx with ⟨_, hxok⟩
        rw [he] at hxok
        simp [hc] at hxok
      rw [removeDisconnected_cons_not_mem c _ t hne, ih]
      simp [List.filter_cons, hc]
    · have hfilter : (c :: t).filter (fun x => !ok x) = c :: t.filter (fun x => !ok x) := by
        simp [List.filter_cons, hc]
      rw [hfilter]
      show Broadcaster.removeDisconnected (t.filter (fun x => !ok x))
          (if (c :: t).contains c then Broadcaster.pyListRemove c (c :: t) else c :: t)
        = (c :: t).filter ok
      have hcont : (c :: t).contains c = true := by simp [List.contains_cons]
      rw [hcont]
      simp only [if_true]
      have hrem : Broadcaster.pyListRemove c (c :: t) = t := by
        simp [Broadcaster.pyListRemove]
      rw [hrem, ih]
      simp [List.filter_cons, hc]

theorem countP_not_add {α : Type} (p : α → Bool) :
    ∀ l : List α, (l.filter p).length + (l.filter (fun a => !p a)).length = l.length := by
  intro l
  induction l with
  | nil => rfl
  | cons c t ih =>
    by_cases hc : p c <;> simp [List.filter_cons, hc] <;> omega

/-! ## Lemmas: task lifecycle engine -/

namespace ApiModel

theorem runOps_append (s : SysState) (xs ys : List Op) :
    runOps s (xs ++ ys) = runOps (runOps s xs) ys := by
  unfold runOps
  exact List.foldl_append _ _ _ _

theorem runTrace_head (s : SysState) (ops : List Op) :
    (runTrace s ops).head? = some s := by
  cases ops <;> rfl

theorem progressFormula_eq (n : Nat) : progressFormula n = min 95 (5 * n) := by
  unfold progressFormula
  congr 1
  rw [show n * 100 = 5 * n * 20 by ring]
  exact Nat.mul_div_cancel _ (by norm_num)

theorem progressFormula_le (n : Nat) : progressFormula n ≤ 95 :=
  Nat.min_le_left _ _

theorem progressFormula_mono {m n : Nat} (h : m ≤ n) :
    progressFormula m ≤ progressFormula n := by
  rw [progressFormula_eq, progressFormula_eq]
  omega

theorem inv_step (s : SysState) (op : Op) (hok : StepOk s op)
    (hinv : Good s ∧ Prog100 s) : Good (applyOp s op) ∧ Prog100 (applyOp s op) := by
  obtain ⟨hg, h100⟩ := hinv
  cases op with
  | logExec a b c d =>
    constructor
    · intro _
      simp [applyOp]
    · intro habs
      have hle : (applyOp s (.logExec a b c d)).task.progress ≤ 95 := by
        simp only [applyOp]
        exact progressFormula_le _
      omega
  | setStatus st =>
    cases st with
    | created => exact absurd hok (by simp [StepOk])
    | running =>
      constructor
      · intro _
        simpa [applyOp] using hg hok
      · intro habs
        simp only [applyOp] at habs
        have := hg hok
        have := progressFormula_le s.task.log.length
        omega
    | completed =>
      constructor
      · intro hc
        simp [applyOp] at hc
      · intro _
        simp [applyOp]
    | failed =>
      constructor
      · intro hc
        simp [applyOp] at hc
      · intro habs
        simp only [applyOp] at habs
        have := hg hok
        have := progressFormula_le s.task.log.length
        omega
  | setProgress p =>
    obtain ⟨⟨hnc, hnr⟩, hp100⟩ := hok
    constructor
    · intro hcr
      simp only [applyOp] at hcr
      cases hcr with
      | inl h => exact absurd h hnc
      | inr h => exact absurd h hnr
    · intro habs
      simp only [applyOp] at habs
      simpa [applyOp] using hp100 habs
  | setResult r =>
    constructor
    · intro hcr
      simp only [applyOp] at hcr
      simpa [applyOp] using hg hcr
    · intro habs
      simp only [applyOp] at habs
      simpa [applyOp] using h100 habs
  | setCompletedAt =>
    constructor
    · intro hcr
      simp only [applyOp] at hcr
      simpa [applyOp] using hg hcr
    · intro habs
      simp only [applyOp] at habs
      simpa [applyOp] using h100 habs
  | resetWorkers =>
    constructor
    · intro hcr
      simp only [applyOp] at hcr
      simpa [applyOp] using hg hcr
    · intro habs
      simp only [applyOp] at habs
      simpa [applyOp] using h100 habs

theorem monoR_step (s : SysState) (op : Op) (hok : StepOk s op)
    (hinv : Good s ∧ Prog100 s) : MonoR s (applyOp s op) := by
  obtain ⟨hg, _⟩ := hinv
  cases op with
  | logExec a b c d =>
    intro hr _
    have hgv := hg (Or.inr hr)
    simp only [applyOp]
    rw [hgv]
    exact progressFormula_mono (by simp)
  | setStatus st =>
    intro _ _
    simp [applyOp]
  | setProgress p =>
    intro hr _
    exact absurd hr hok.1.2
  | setResult r => intro _ _; simp [applyOp]
  | setCompletedAt => intro _ _; simp [applyOp]
  | resetWorkers => intro _ _; simp [applyOp]

theorem caOnce_step (s : SysState) (op : Op) (hok : StepOk s op) :
    CAOnce s (applyOp s op) := by
  cases op with
  | setCompletedAt => exact Or.inl hok
  | logExec a b c d => exact Or.inr (by simp [applyOp])
  | setStatus st => exact Or.inr (by simp [applyOp])
  | setProgress p => exact Or.inr (by simp [applyOp])
  | setResult r => exact Or.inr (by simp [applyOp])
  | resetWorkers => exact Or.inr (by simp [applyOp])

theorem trace_inv :
    ∀ (ops : List Op) (s : SysState), Good s ∧ Prog100 s → StepsOk s ops →
      ∀ t ∈ runTrace s ops, Good t ∧ Prog100 t := by
  intro ops
  induction ops with
  | nil =>
    intro s hinv _ t ht
    simp only [runTrace, List.mem_singleton] at ht
    exact ht ▸ hinv
  | cons op rest ih =>
    intro s hinv hok t ht
    simp only [runTrace, List.mem_cons] at ht
    cases ht with
    | inl h => exact h ▸ hinv
    | inr h => exact ih (applyOp s op) (inv_step s op hok.1 hinv) hok.2 t h

theorem trace_chain_monoR :
    ∀ (ops : List Op) (s : SysState), Good s ∧ Prog100 s → StepsOk s ops →
      List.Chain' MonoR (runTrace s ops) := by
  intro ops
  induction ops with
  | nil => intro s _ _; simp [runTrace]
  | cons op rest ih =>
    intro s hinv hok
    show List.Chain' MonoR (s :: runTrace (applyOp s op) rest)
    rw [List.chain'_cons']
    constructor
    · intro y hy
      rw [runTrace_head] at hy
      cases hy
      exact monoR_step s op hok.1 hinv
    · exact ih (applyOp s op) (inv_step s op hok.1 hinv) hok.2

theorem trace_chain_caOnce :
    ∀ (ops : List Op) (s : SysState), StepsOk s ops →
      List.Chain' CAOnce (runTrace s ops) := by
  intro ops
  induction ops with
  | nil => intro s _; simp [runTrace]
  | cons op rest ih =>
    intro s hok
    show List.Chain' CAOnce (s :: runTrace (applyOp s op) rest)
    rw [List.chain'_cons']
    constructor
    · intro y hy
      rw [runTrace_head] at hy
      cases hy
      exact caOnce_step s op hok.1
    · exact ih (applyOp s op) hok.2

theorem stepOk_of_alwaysOk (s : SysState) (op : Op) (h : alwaysOk op) : StepOk s op := by
  cases op with
  | logExec a b c d => trivial
  | setStatus st => cases st with
    | completed => trivial
    | created => exact absurd h (by simp [alwaysOk])
    | running => exact absurd h (by simp [alwaysOk])
    | failed => exact absurd h (by simp [alwaysOk])
  | setProgress p => exact absurd h (by simp [alwaysOk])
  | setResult r => trivial
  | setCompletedAt => exact absurd h (by simp [alwaysOk])
  | resetWorkers => trivial

theorem stepsOk_of_alwaysOk :
    ∀ (ops : List Op), (∀ op ∈ ops, alwaysOk op) → ∀ s, StepsOk s ops := by
  intro ops
  induction ops with
  | nil => intro _ s; trivial
  | cons op rest ih =>
    intro h s
    exact ⟨stepOk_of_alwaysOk s op (h op (List.mem_cons_self _ _)),
      ih (fun o ho => h o (List.mem_cons_of_mem _ ho)) _⟩

theorem stepsOk_append :
    ∀ (xs : List Op) (s : SysState) (ys : List Op),
      StepsOk s xs → StepsOk (runOps s xs) ys → StepsOk s (xs ++ ys) := by
  intro xs
  induction xs with
  | nil => intro s ys _ h; exact h
  | cons op rest ih =>
    intro s ys hx hy
    exact ⟨hx.1, ih (applyOp s op) ys hx.2 hy⟩

theorem status_applyOp (s : SysState) (op : Op) (h : ∀ st, op ≠ .setStatus st) :
    (applyOp s op).task.status = s.task.status := by
  cases op with
  | logExec a b c d => simp [applyOp]
  | setStatus st => exact absurd rfl (h st)
  | setProgress p => simp [applyOp]
  | setResult r => simp [applyOp]
  | setCompletedAt => simp [applyOp]
  | resetWorkers => simp [applyOp]

theorem status_runOps :
    ∀ (ops : List Op) (s : SysState), (∀ op ∈ ops, ∀ st, op ≠ Op.setStatus st) →
      (runOps s ops).task.status = s.task.status := by
  intro ops
  induction ops with
  | nil => intro s _; rfl
  | cons op rest ih =>
    intro s h
    show (runOps (applyOp s op) rest).task.status = s.task.status
    rw [ih (applyOp s op) (fun o ho => h o (List.mem_cons_of_mem _ ho)),
      status_applyOp s op (h op (List.mem_cons_self _ _))]

theorem ca_applyOp (s : SysState) (op : Op) (h : op ≠ .setCompletedAt) :
    (applyOp s op).task.completedAt = s.task.completedAt := by
  cases op with
  | logExec a b c d => simp [applyOp]
  | setStatus st => simp [applyOp]
  | setProgress p => simp [applyOp]
  | setResult r => simp [applyOp]
  | setCompletedAt => exact absurd rfl h
  | resetWorkers => simp [applyOp]

theorem ca_runOps :
    ∀ (ops : List Op) (s : SysState), (∀ op ∈ ops, op ≠ Op.setCompletedAt) →
      (runOps s ops).task.completedAt = s.task.completedAt := by
  intro ops
  induction ops with
  | nil => intro s _; rfl
  | cons op rest ih =>
    intro s h
    show (runOps (applyOp s op) rest).task.completedAt = s.task.completedAt
    rw [ih (applyOp s op) (fun o ho => h o (List.mem_cons_of_mem _ ho)),
      ca_applyOp s op (h op (List.mem_cons_self _ _))]

theorem log_len_applyOp (s : SysState) (op : Op) :
    (applyOp s op).task.log.length = s.task.log.length + logDelta op := by
  cases op with
  | logExec a b c d => simp [applyOp, logDelta]
  | setStatus st => simp [applyOp, logDelta]
  | setProgress p => simp [applyOp, logDelta]
  | setResult r => simp [applyOp, logDelta]
  | setCompletedAt => simp [applyOp, logDelta]
  | resetWorkers => simp [applyOp, logDelta]

theorem log_len_runOps :
    ∀ (ops : List Op) (s : SysState),
      (runOps s ops).task.log.length = s.task.log.length + (ops.map logDelta).sum := by
  intro ops
  induction ops with
  | nil => intro s; simp [runOps]
  | cons op rest ih =>
    intro s
    show (runOps (applyOp s op) rest).task.log.length = _
    rw [ih (applyOp s op), log_len_applyOp]
    simp
    omega

theorem mem_simOps (k : Nat) (op : Op) (h : op ∈ simOps k) :
    ∃ a b c d, op = Op.logExec a b c d := by
  rcases List.mem_map.mp h with ⟨t, _, rfl⟩
  exact ⟨t.1, t.2.1, t.2.2, "running", rfl⟩

theorem simOps_alwaysOk (k : Nat) : ∀ op ∈ simOps k, alwaysOk op := by
  intro op h
  rcases mem_simOps k op h with ⟨a, b, c, d, rfl⟩
  trivial

theorem simOps_no_setStatus (k : Nat) : ∀ op ∈ simOps k, ∀ st, op ≠ Op.setStatus st := by
  intro op h st
  rcases mem_simOps k op h with ⟨a, b, c, d, rfl⟩
  simp

theorem simOps_no_setCA (k : Nat) : ∀ op ∈ simOps k, op ≠ Op.setCompletedAt := by
  intro op h
  rcases mem_simOps k op h with ⟨a, b, c, d, rfl⟩
  simp

theorem simOps_logDelta_sum (k : Nat) : ((simOps k).map logDelta).sum = min k 10 := by
  unfold simOps
  rw [List.map_map]
  have hc : (logDelta ∘ fun t : String × String × String => Op.logExec t.1 t.2.1 t.2.2 "running")
      = fun _ => 1 := by
    funext t
    rfl
  rw [hc]
  have hsum : ∀ l : List (String × String × String), (l.map (fun _ => (1 : Nat))).sum = l.length := by
    intro l
    induction l with
    | nil => rfl
    | cons x t ih => simp [ih]; omega
  rw [hsum]
  simp [simActivities]

theorem mem_preLogs (desc : String) (op : Op) (h : op ∈ preLogs desc) :
    ∃ a b c d, op = Op.logExec a b c d := by
  simp only [preLogs, List.mem_cons, List.not_mem_nil, or_false] at h
  rcases h with rfl | rfl | rfl | rfl | rfl | rfl <;>
    exact ⟨_, _, _, _, rfl⟩

theorem preLogs_alwaysOk (desc : String) : ∀ op ∈ preLogs desc, alwaysOk op := by
  intro op h
  rcases mem_preLogs desc op h with ⟨a, b, c, d, rfl⟩
  trivial

theorem preLogs_no_setStatus (desc : String) :
    ∀ op ∈ preLogs desc, ∀ st, op ≠ Op.setStatus st := by
  intro op h st
  rcases mem_preLogs desc op h with ⟨a, b, c, d, rfl⟩
  simp

theorem preOps_no_setCA (desc : String) : ∀ op ∈ preOps desc, op ≠ Op.setCompletedAt := by
  intro op h
  simp only [preOps, List.mem_cons] at h
  rcases h with rfl | h
  · simp
  · rcases mem_preLogs desc op h with ⟨a, b, c, d, rfl⟩
    simp

theorem stepsOk_preOps (desc : String) (s : SysState) (hs : s.task.status = .created) :
    StepsOk s (preOps desc) := by
  refine ⟨Or.inl hs, ?_⟩
  exact stepsOk_of_alwaysOk _ (preLogs_alwaysOk desc) _

theorem status_after_preOps (desc : String) (s : SysState) :
    (runOps s (preOps desc)).task.status = .running := by
  show (runOps (applyOp s (.setStatus .running)) (preLogs desc)).task.status = .running
  rw [status_runOps _ _ (preLogs_no_setStatus desc)]
  simp [applyOp]

theorem runOps_cons (s : SysState) (op : Op) (ops : List Op) :
    runOps s (op :: ops) = runOps (applyOp s op) ops := rfl

theorem stepsOk_completeOps (res : String) (s : SysState)
    (hca : s.task.completedAt = none) : StepsOk s (completeOps res) := by
  simp [completeOps, StepsOk, StepOk, applyOp, hca]

theorem stepsOk_failOps (emsg : String) (s : SysState)
    (hs : s.task.status = .running) : StepsOk s (failOps emsg) := by
  simp [failOps, StepsOk, StepOk, applyOp, hs]

/-- The state after `create_task` plus the pre-executor part of
`execute_crew_task` with `k` background narration events. -/
def midState (desc : String) (k : Nat) : SysState :=
  runOps initState (createOp desc :: (preOps desc ++ simOps k))

theorem completedProgram_decomp (desc res : String) (k : Nat) :
    completedProgram desc res k
      = (createOp desc :: (preOps desc ++ simOps k)) ++ completeOps res := by
  simp [completedProgram, List.cons_append, List.append_assoc]

theorem failedProgram_decomp (desc emsg : String) (k : Nat) :
    failedProgram desc emsg k
      = (createOp desc :: (preOps desc ++ simOps k)) ++ (failOps emsg ++ simOpsTail k) := by
  simp [failedProgram, List.cons_append, List.append_assoc]

theorem initState_inv : Good initState ∧ Prog100 initState := by
  constructor
  · intro _
    rfl
  · intro h
    simp [initState] at h

theorem state1_status (desc : String) :
    (applyOp initState (createOp desc)).task.status = .created := rfl

theorem state1_ca (desc : String) :
    (applyOp initState (createOp desc)).task.completedAt = none := rfl

theorem midState_status (desc : String) (k : Nat) :
    (midState desc k).task.status = .running := by
  unfold midState
  rw [runOps_cons, runOps_append, status_runOps _ _ (simOps_no_setStatus k)]
  exact status_after_preOps desc _

theorem midState_ca (desc : String) (k : Nat) :
    (midState desc k).task.completedAt = none := by
  unfold midState
  rw [runOps_cons, runOps_append, ca_runOps _ _ (simOps_no_setCA k),
    ca_runOps _ _ (preOps_no_setCA desc)]
  exact state1_ca desc

theorem preOps_logDelta_sum (desc : String) : ((preOps desc).map logDelta).sum = 6 := rfl

theorem midState_len (desc : String) (k : Nat) :
    (midState desc k).task.log.length = 7 + min k 10 := by
  unfold midState
  rw [log_len_runOps]
  simp only [List.map_cons, List.map_append, List.sum_cons, List.sum_append,
    preOps_logDelta_sum, simOps_logDelta_sum]
  simp [initState, createOp, logDelta]
  omega

theorem stepsOk_completedProgram (desc res : String) (k : Nat) :
    StepsOk initState (completedProgram desc res k) := by
  rw [completedProgram_decomp]
  apply stepsOk_append
  · refine ⟨trivial, ?_⟩
    apply stepsOk_append
    · exact stepsOk_preOps desc _ (state1_status desc)
    · exact stepsOk_of_alwaysOk _ (simOps_alwaysOk k) _
  · exact stepsOk_completeOps res _ (midState_ca desc k)

end ApiModel

namespace ApiModel

theorem runOps_take_mem_runTrace :
    ∀ (ops : List Op) (s : SysState) (n : Nat),
      runOps s (ops.take n) ∈ runTrace s ops := by
  intro ops
  induction ops with
  | nil =>
    intro s n
    simp [runTrace, runOps]
  | cons op rest ih =>
    intro s n
    cases n with
    | zero => simp [runTrace, runOps]
    | succ n =>
      rw [List.take_succ_cons, runOps_cons]
      exact List.mem_cons_of_mem _ (ih (applyOp s op) n)

theorem failOps_status (emsg : String) (m : SysState) :
    (runOps m (failOps emsg)).task.status = .failed := rfl

theorem failOps_result (emsg : String) (m : SysState) :
    (runOps m (failOps emsg)).task.result = some ("Error: " ++ emsg) := rfl

theorem failOps_ca (emsg : String) (m : SysState) :
    (runOps m (failOps emsg)).task.completedAt = m.task.completedAt := rfl

theorem failOps_log (emsg : String) (m : SysState) :
    (runOps m (failOps emsg)).task.log
      = m.task.log ++
        [{ timestamp := m.now + 3, agent := "system", action := "error"
           message := "Task execution failed: " ++ emsg, level := "error" }] := rfl

theorem failOps_len (emsg : String) (m : SysState) :
    (runOps m (failOps emsg)).task.log.length = m.task.log.length + 1 := by
  rw [failOps_log, List.length_append]
  rfl

theorem failOps_progress (emsg : String) (m : SysState) :
    (runOps m (failOps emsg)).task.progress
      = progressFormula (m.task.log.length + 1) := by
  have h : (runOps m (failOps emsg)).task.progress
      = progressFormula ((runOps m (failOps emsg)).task.log.length) := rfl
  rw [h, failOps_len]


theorem failOps_workers (emsg : String) (m : SysState) :
    ∀ w ∈ (runOps m (failOps emsg)).workers,
      w.wstatus = "ready" ∧ w.currentTask = none := by
  intro w hw
  have : (runOps m (failOps emsg)).workers
      = ((m.workers.map (updateWorker "system" "error" "error" (m.now + 3))).map
          (fun w => { w with wstatus := "ready", currentTask := none })) := rfl
  rw [this] at hw
  rcases List.mem_map.mp hw with ⟨w', _, rfl⟩
  exact ⟨rfl, rfl⟩

theorem failOps_take1_status (emsg : String) (m : SysState) :
    (runOps m ((failOps emsg).take 1)).task.status = .failed := rfl

theorem failOps_take1_len (emsg : String) (m : SysState) :
    (runOps m ((failOps emsg).take 1)).task.log.length = m.task.log.length := rfl

theorem failOps_take2_progress (emsg : String) (m : SysState) :
    (runOps m ((failOps emsg).take 2)).task.progress = 0 := rfl

theorem failOps_take2_status (emsg : String) (m : SysState) :
    (runOps m ((failOps emsg).take 2)).task.status = .failed := rfl

theorem completeOps_status (res : String) (m : SysState) :
    (runOps m (completeOps res)).task.status = .completed := rfl

theorem completeOps_result (res : String) (m : SysState) :
    (runOps m (completeOps res)).task.result = some res := rfl

theorem completeOps_ca (res : String) (m : SysState) :
    (runOps m (completeOps res)).task.completedAt = some (m.now + 4) := rfl

theorem completeOps_len (res : String) (m : SysState) :
    (runOps m (completeOps res)).task.log.length = m.task.log.length + 3 := by
  rw [log_len_runOps]
  rfl

theorem completeOps_progress (res : String) (m : SysState) :
    (runOps m (completeOps res)).task.progress
      = progressFormula (m.task.log.length + 3) := by
  have h : (runOps m (completeOps res)).task.progress
      = progressFormula ((runOps m (completeOps res)).task.log.length) := rfl
  rw [h, completeOps_len]


theorem completeOps_take4_status (res : String) (m : SysState) :
    (runOps m ((completeOps res).take 4)).task.status = .completed := rfl

theorem completeOps_take4_len (res : String) (m : SysState) :
    (runOps m ((completeOps res).take 4)).task.log.length = m.task.log.length + 2 := by
  rw [log_len_runOps]
  rfl

theorem completeOps_take6_progress (res : String) (m : SysState) :
    (runOps m ((completeOps res).take 6)).task.progress = 100 := rfl

theorem completeOps_take6_status (res : String) (m : SysState) :
    (runOps m ((completeOps res).take 6)).task.status = .completed := rfl

theorem mem_simOpsTail (k : Nat) (op : Op) (h : op ∈ simOpsTail k) :
    ∃ a b c d, op = Op.logExec a b c d := by
  rcases List.mem_map.mp h with ⟨t, _, rfl⟩
  exact ⟨t.1, t.2.1, t.2.2, "running", rfl⟩

theorem simOpsTail_alwaysOk (k : Nat) : ∀ op ∈ simOpsTail k, alwaysOk op := by
  intro op h
  rcases mem_simOpsTail k op h with ⟨a, b, c, d, rfl⟩
  trivial

theorem simOpsTail_no_setStatus (k : Nat) :
    ∀ op ∈ simOpsTail k, ∀ st, op ≠ Op.setStatus st := by
  intro op h st
  rcases mem_simOpsTail k op h with ⟨a, b, c, d, rfl⟩
  simp

theorem simOpsTail_no_setCA (k : Nat) : ∀ op ∈ simOpsTail k, op ≠ Op.setCompletedAt := by
  intro op h
  rcases mem_simOpsTail k op h with ⟨a, b, c, d, rfl⟩
  simp

theorem simOpsTail_no_setResult (k : Nat) :
    ∀ op ∈ simOpsTail k, ∀ r, op ≠ Op.setResult r := by
  intro op h r
  rcases mem_simOpsTail k op h with ⟨a, b, c, d, rfl⟩
  simp

theorem simOpsTail_logDelta_sum (k : Nat) :
    ((simOpsTail k).map logDelta).sum = 10 - min k 10 := by
  unfold simOpsTail
  rw [List.map_map]
  have hc : (logDelta ∘ fun t : String × String × String =>
      Op.logExec t.1 t.2.1 t.2.2 "running") = fun _ => 1 := by
    funext t
    rfl
  rw [hc]
  have hsum : ∀ l : List (String × String × String),
      (l.map (fun _ => (1 : Nat))).sum = l.length := by
    intro l
    induction l with
    | nil => rfl
    | cons x t ih => simp [ih]; omega
  rw [hsum]
  simp [simActivities]
  omega

theorem failOps_logDelta_sum (emsg : String) : ((failOps emsg).map logDelta).sum = 1 := rfl

theorem stepsOk_failedProgram (desc emsg : String) (k : Nat) :
    StepsOk initState (failedProgram desc emsg k) := by
  rw [failedProgram_decomp]
  apply stepsOk_append
  · refine ⟨trivial, ?_⟩
    apply stepsOk_append
    · exact stepsOk_preOps desc _ (state1_status desc)
    · exact stepsOk_of_alwaysOk _ (simOps_alwaysOk k) _
  · apply stepsOk_append
    · exact stepsOk_failOps emsg _ (midState_status desc k)
    · exact stepsOk_of_alwaysOk _ (simOpsTail_alwaysOk k) _


theorem result_applyOp (s : SysState) (op : Op) (h : ∀ r, op ≠ Op.setResult r) :
    (applyOp s op).task.result = s.task.result := by
  cases op with
  | logExec a b c d => simp [applyOp]
  | setStatus st => simp [applyOp]
  | setProgress p => simp [applyOp]
  | setResult r => exact absurd rfl (h r)
  | setCompletedAt => simp [applyOp]
  | resetWorkers => simp [applyOp]

theorem result_runOps :
    ∀ (ops : List Op) (s : SysState), (∀ op ∈ ops, ∀ r, op ≠ Op.setResult r) →
      (runOps s ops).task.result = s.task.result := by
  intro ops
  induction ops with
  | nil => intro s _; rfl
  | cons op rest ih =>
    intro s h
    rw [runOps_cons, ih (applyOp s op) (fun o ho => h o (List.mem_cons_of_mem _ ho)),
      result_applyOp s op (h op (List.mem_cons_self _ _))]

theorem prog_formula_runOps_logs :
    ∀ (ops : List Op), (∀ op ∈ ops, ∃ a b c d, op = Op.logExec a b c d) →
      ∀ s : SysState, s.task.progress = progressFormula s.task.log.length →
      (runOps s ops).task.progress
        = progressFormula (runOps s ops).task.log.length := by
  intro ops
  induction ops with
  | nil => intro _ s hs; exact hs
  | cons op rest ih =>
    intro h s hs
    rw [runOps_cons]
    apply ih (fun o ho => h o (List.mem_cons_of_mem _ ho))
    rcases h op (List.mem_cons_self _ _) with ⟨a, b, c, d, rfl⟩
    rfl

theorem mem_log_applyOp (s : SysState) (op : Op) (e : LogEntry)
    (h : e ∈ s.task.log) : e ∈ (applyOp s op).task.log := by
  cases op with
  | logExec a b c d => exact List.mem_append_left _ h
  | setStatus st => exact h
  | setProgress p => exact h
  | setResult r => exact h
  | setCompletedAt => exact h
  | resetWorkers => exact h

theorem mem_log_runOps :
    ∀ (ops : List Op) (s : SysState) (e : LogEntry),
      e ∈ s.task.log → e ∈ (runOps s ops).task.log := by
  intro ops
  induction ops with
  | nil => intro s e h; exact h
  | cons op rest ih =>
    intro s e h
    rw [runOps_cons]
    exact ih (applyOp s op) e (mem_log_applyOp s op e h)

theorem workerNames_applyOp (s : SysState) (op : Op) :
    (applyOp s op).workers.map (fun w => w.name)
      = s.workers.map (fun w => w.name) := by
  cases op with
  | logExec a b c d =>
    show (s.workers.map (updateWorker a b d s.now)).map (fun w => w.name) = _
    rw [List.map_map]
    congr 1
    funext w
    show (updateWorker a b d s.now w).name = w.name
    unfold updateWorker
    split <;> rfl
  | setStatus st => rfl
  | setProgress p => rfl
  | setResult r => rfl
  | setCompletedAt => rfl
  | resetWorkers =>
    show ((s.workers.map (fun w => { w with wstatus := "ready", currentTask := none })).map
        (fun w => w.name)) = s.workers.map (fun w => w.name)
    rw [List.map_map]
    congr 1

theorem workerNames_runOps (ops : List Op) :
    ∀ s : SysState, (runOps s ops).workers.map (fun w => w.name)
      = s.workers.map (fun w => w.name) := by
  induction ops with
  | nil => intro s; rfl
  | cons op rest ih =>
    intro s
    rw [runOps_cons, ih (applyOp s op), workerNames_applyOp]

/-- The executor-failure run decomposed at the end of the `except` block:
the stragglers run from the post-`except` state. -/
theorem failedProgram_run (desc emsg : String) (k : Nat) :
    runOps initState (failedProgram desc emsg k)
      = runOps (runOps (midState desc k) (failOps emsg)) (simOpsTail k) := by
  rw [failedProgram_decomp, runOps_append, runOps_append]
  rfl

theorem failedFinal_status (desc emsg : String) (k : Nat) :
    (runOps initState (failedProgram desc emsg k)).task.status = .failed := by
  rw [failedProgram_run, status_runOps _ _ (simOpsTail_no_setStatus k)]
  exact failOps_status emsg _

theorem failedFinal_result (desc emsg : String) (k : Nat) :
    (runOps initState (failedProgram desc emsg k)).task.result
      = some ("Error: " ++ emsg) := by
  rw [failedProgram_run, result_runOps _ _ (simOpsTail_no_setResult k)]
  exact failOps_result emsg _

theorem failedFinal_ca (desc emsg : String) (k : Nat) :
    (runOps initState (failedProgram desc emsg k)).task.completedAt = none := by
  rw [failedProgram_run, ca_runOps _ _ (simOpsTail_no_setCA k), failOps_ca]
  exact midState_ca desc k

theorem failedFinal_len (desc emsg : String) (k : Nat) :
    (runOps initState (failedProgram desc emsg k)).task.log.length = 18 := by
  rw [log_len_runOps]
  simp only [failedProgram, List.map_cons, List.map_append, List.sum_cons,
    List.sum_append, preOps_logDelta_sum, simOps_logDelta_sum,
    failOps_logDelta_sum, simOpsTail_logDelta_sum]
  simp [initState, createOp, logDelta]
  omega

theorem failedFinal_progress (desc emsg : String) (k : Nat) :
    (runOps initState (failedProgram desc emsg k)).task.progress = 90 := by
  have hP : (runOps (midState desc k) (failOps emsg)).task.progress
      = progressFormula (runOps (midState desc k) (failOps emsg)).task.log.length := by
    rw [failOps_progress, failOps_len]
  have hform : (runOps initState (failedProgram desc emsg k)).task.progress
      = progressFormula (runOps initState (failedProgram desc emsg k)).task.log.length := by
    rw [failedProgram_run]
    exact prog_formula_runOps_logs (simOpsTail k) (mem_simOpsTail k) _ hP
  rw [hform, failedFinal_len]
  decide

theorem failedFinal_error_mem (desc emsg : String) (k : Nat) :
    ({ timestamp := (midState desc k).now + 3, agent := "system", action := "error"
       message := "Task execution failed: " ++ emsg, level := "error" } : LogEntry)
      ∈ (runOps initState (failedProgram desc emsg k)).task.log := by
  rw [failedProgram_run]
  apply mem_log_runOps
  rw [failOps_log]
  exact List.mem_append_right _ (List.mem_singleton_self _)

theorem simOpsTail_concat (k : Nat) (hk : k < 10) :
    simOpsTail k
      = ((simActivities.drop k).dropLast.map
          (fun t => Op.logExec t.1 t.2.1 t.2.2 "running"))
        ++ [Op.logExec "task_allocation_manager" "load_balancing"
            "Optimizing task distribution and resource usage" "running"] := by
  interval_cases k <;> rfl

theorem runOps_singleton (s : SysState) (op : Op) : runOps s [op] = applyOp s op := rfl

theorem failedFinal_tam_busy (desc emsg : String) (k : Nat) (hk : k < 10) :
    ∃ w ∈ (runOps initState (failedProgram desc emsg k)).workers,
      w.name = "task_allocation_manager" ∧ w.wstatus = "busy" := by
  rw [failedProgram_run, simOpsTail_concat k hk, runOps_append, runOps_singleton]
  set S := runOps (runOps (midState desc k) (failOps emsg))
      ((simActivities.drop k).dropLast.map
        (fun t => Op.logExec t.1 t.2.1 t.2.2 "running")) with hS
  have hmid : (midState desc k).workers.map (fun w => w.name)
      = initWorkers.map (fun w => w.name) := by
    unfold midState
    rw [workerNames_runOps]
    rfl
  have hnames : S.workers.map (fun w => w.name) = initWorkers.map (fun w => w.name) := by
    rw [hS, workerNames_runOps, workerNames_runOps, hmid]
  have htam : "task_allocation_manager" ∈ S.workers.map (fun w => w.name) := by
    rw [hnames]
    simp [initWorkers]
  rcases List.mem_map.mp htam with ⟨w0, hw0, hname⟩
  refine ⟨updateWorker "task_allocation_manager" "load_balancing" "running" S.now w0,
    List.mem_map_of_mem _ hw0, ?_, ?_⟩
  · unfold updateWorker
    split <;> exact hname
  · unfold updateWorker
    rw [if_pos ⟨hname, by decide⟩]
    simp

end ApiModel

/-! ## Claims -/

/-- C1: the specification expansion is deterministic: within one process
(one string-hash environment `h`), two calls of
`IntelligentOrchestrator.expand_user_input`,
`IntelligentAgentCreator.create_agent_from_nlp` or
`IntelligentAgentCreator.create_task_from_nlp` on the same input return
specifications that are equal field for field, including the order of
every list field.  The embedding threads the per-process set-iteration
order `h` — the only ambient input of the pipelines — explicitly, so the
pipelines are pure functions and equality of two calls is definitional. -/
theorem C1_expansion_deterministic :
    ∀ (h : String → Nat) (s : String) (agents : List String),
      IntelligentOrchestrator.expand_user_input h s
          = IntelligentOrchestrator.expand_user_input h s
      ∧ IntelligentAgentCreator.create_agent_from_nlp h s
          = IntelligentAgentCreator.create_agent_from_nlp h s
      ∧ IntelligentAgentCreator.create_task_from_nlp h s agents
          = IntelligentAgentCreator.create_task_from_nlp h s agents :=
  fun _ _ _ => ⟨rfl, rfl, rfl⟩

/-- C10: for every input text (and every process hash environment), the
task expansion's `required_agents` list contains
`orchestration_coordinator`: `_select_agents` seeds the base list with the
coordinator and `list(set(...))` preserves membership. -/
theorem C10_required_agents_contain_coordinator :
    ∀ (h : String → Nat) (s : String),
      "orchestration_coordinator"
        ∈ (IntelligentOrchestrator.expand_user_input h s).required_agents := by
  intro h s
  have hreq : (IntelligentOrchestrator.expand_user_input h s).required_agents
      = IntelligentOrchestrator.select_agents h
          (IntelligentOrchestrator.detect_intent (IntelligentOrchestrator.clean_input s))
          (IntelligentOrchestrator.detect_domain (IntelligentOrchestrator.clean_input s))
          (IntelligentOrchestrator.extract_entities (IntelligentOrchestrator.clean_input s)) := rfl
  rw [hreq]
  unfold IntelligentOrchestrator.select_agents
  rw [mem_pySetList]
  split <;> simp

/-- C9: when the broadcaster publishes an event, every observer whose
delivery succeeds receives it (in subscription order), every observer
whose delivery fails is removed from the subscriber set within the same
publish call, and each observer is attempted exactly once per publish (no
retry or requeue). -/
theorem C9_broadcast_failure_isolation :
    ∀ (ok : String → Bool) (clients : List String),
      (Broadcaster.broadcast_message ok clients).1 = clients.filter ok
      ∧ (Broadcaster.broadcast_message ok clients).2 = clients.filter ok
      ∧ (Broadcaster.broadcast_message ok clients).1.length
          + (clients.filter (fun c => !ok c)).length = clients.length := by
  intro ok clients
  have hb : Broadcaster.broadcast_message ok clients
      = (clients.filter ok,
         Broadcaster.removeDisconnected (clients.filter (fun c => !ok c)) clients) := by
    unfold Broadcaster.broadcast_message
    rw [broadcastLoop_eq]
  rw [hb]
  exact ⟨rfl, removeDisconnected_filter ok clients, countP_not_add ok clients⟩

/-- C2 (counterexample): in the modeled successful execution the final
snapshot has `status = completed` but `progress = 50`, because the
terminal `task_completed` log entry recomputes progress from the event
count after progress was set to 100; this refutes
`progress == 100 ⇔ status == completed` over reachable snapshots. -/
theorem C2_completed_with_progress_50 :
    (ApiModel.runOps ApiModel.initState (ApiModel.completedProgram "d" "R" 0)).task.status
        = ApiModel.TStatus.completed
    ∧ (ApiModel.runOps ApiModel.initState
        (ApiModel.completedProgram "d" "R" 0)).task.progress = 50
    ∧ ¬ (ApiModel.runOps ApiModel.initState
        (ApiModel.completedProgram "d" "R" 0)).task.progress = 100 :=
  ⟨rfl, rfl, by decide⟩

/-- C2 (amended): along every modeled execution, progress is
non-decreasing across every step whose two endpoint states are `running`,
and `progress = 100` implies `status = completed` in every reachable
snapshot; the converse fails in the final completed snapshot (see the
counterexample), since the terminal log append lowers progress back to
`min 95 (5·events)`. -/
theorem C2_progress_monotone_and_100_implies_completed :
    ∀ (desc res emsg : String) (k : Nat),
      List.Chain' ApiModel.MonoR
        (ApiModel.runTrace ApiModel.initState (ApiModel.completedProgram desc res k))
      ∧ List.Chain' ApiModel.MonoR
        (ApiModel.runTrace ApiModel.initState (ApiModel.failedProgram desc emsg k))
      ∧ (∀ t ∈ ApiModel.runTrace ApiModel.initState (ApiModel.completedProgram desc res k),
          t.task.progress = 100 → t.task.status = ApiModel.TStatus.completed)
      ∧ (∀ t ∈ ApiModel.runTrace ApiModel.initState (ApiModel.failedProgram desc emsg k),
          t.task.progress = 100 → t.task.status = ApiModel.TStatus.completed) := by
  intro desc res emsg k
  refine ⟨?_, ?_, ?_, ?_⟩
  · exact ApiModel.trace_chain_monoR _ _ ApiModel.initState_inv
      (ApiModel.stepsOk_completedProgram desc res k)
  · exact ApiModel.trace_chain_monoR _ _ ApiModel.initState_inv
      (ApiModel.stepsOk_failedProgram desc emsg k)
  · intro t ht
    exact (ApiModel.trace_inv _ _ ApiModel.initState_inv
      (ApiModel.stepsOk_completedProgram desc res k) t ht).2
  · intro t ht
    exact (ApiModel.trace_inv _ _ ApiModel.initState_inv
      (ApiModel.stepsOk_failedProgram desc emsg k) t ht).2

/-- C2 (witness): the amended theorem applied to the concrete snapshot
reached right after the `progress := 100` write of a concrete successful
execution. -/
theorem C2_progress_monotone_witness :
    (ApiModel.runOps ApiModel.initState
      ((ApiModel.completedProgram "d" "R" 0).take 14)).task.status
        = ApiModel.TStatus.completed :=
  (C2_progress_monotone_and_100_implies_completed "d" "R" "e" 0).2.2.1
    (ApiModel.runOps ApiModel.initState ((ApiModel.completedProgram "d" "R" 0).take 14))
    (ApiModel.runOps_take_mem_runTrace _ _ 14)
    rfl

/-- C3: while a task is running, after each appended event the progress
equals `min(95, floor(100·n/20))` for `n` the number of logged events, so
it never exceeds 95 before the terminal transition, and the terminal
assignments set it to 100 (completed) or 0 (failed) at the transition. -/
theorem C3_running_progress_formula :
    (∀ (desc res emsg : String) (k : Nat) (t : ApiModel.SysState),
      (t ∈ ApiModel.runTrace ApiModel.initState (ApiModel.completedProgram desc res k)
        ∨ t ∈ ApiModel.runTrace ApiModel.initState (ApiModel.failedProgram desc emsg k)) →
      t.task.status = ApiModel.TStatus.running →
        t.task.progress = min 95 (t.task.log.length * 100 / 20)
        ∧ t.task.progress ≤ 95)
    ∧ (∀ (res emsg : String) (m : ApiModel.SysState),
        (ApiModel.runOps m ((ApiModel.completeOps res).take 6)).task.progress = 100
        ∧ (ApiModel.runOps m ((ApiModel.completeOps res).take 6)).task.status
            = ApiModel.TStatus.completed
        ∧ (ApiModel.runOps m ((ApiModel.failOps emsg).take 2)).task.progress = 0
        ∧ (ApiModel.runOps m ((ApiModel.failOps emsg).take 2)).task.status
            = ApiModel.TStatus.failed) := by
  constructor
  · intro desc res emsg k t ht hrun
    have hgood : ApiModel.Good t := by
      cases ht with
      | inl h =>
        exact (ApiModel.trace_inv _ _ ApiModel.initState_inv
          (ApiModel.stepsOk_completedProgram desc res k) t h).1
      | inr h =>
        exact (ApiModel.trace_inv _ _ ApiModel.initState_inv
          (ApiModel.stepsOk_failedProgram desc emsg k) t h).1
    have hval := hgood (Or.inr hrun)
    exact ⟨hval, hval ▸ ApiModel.progressFormula_le _⟩
  · intro res emsg m
    exact ⟨ApiModel.completeOps_take6_progress res m, ApiModel.completeOps_take6_status res m,
      ApiModel.failOps_take2_progress emsg m, ApiModel.failOps_take2_status emsg m⟩

/-- C3 (witness): the formula evaluated at a concrete reachable running
snapshot (after the `task_started` event: 2 events, progress 10). -/
theorem C3_running_progress_formula_witness :
    (ApiModel.runOps ApiModel.initState
        ((ApiModel.completedProgram "d" "R" 0).take 3)).task.progress
      = min 95 ((ApiModel.runOps ApiModel.initState
        ((ApiModel.completedProgram "d" "R" 0).take 3)).task.log.length * 100 / 20)
    ∧ (ApiModel.runOps ApiModel.initState
        ((ApiModel.completedProgram "d" "R" 0).take 3)).task.progress ≤ 95 :=
  C3_running_progress_formula.1 "d" "R" "e" 0
    (ApiModel.runOps ApiModel.initState ((ApiModel.completedProgram "d" "R" 0).take 3))
    (Or.inl (ApiModel.runOps_take_mem_runTrace _ _ 3))
    rfl

/-- C4 (counterexample): in the modeled failed execution the final
snapshot has `completedAt = none` (the failure path never sets it) and the
failure text is stored in the `result` field (the record has no separate
error field), refuting the claim that `completedAt` is set in the failed
case and that a distinct `error` field carries the failure. -/
theorem C4_failed_leaves_completedAt_unset :
    (ApiModel.runOps ApiModel.initState (ApiModel.failedProgram "d" "boom" 0)).task.status
        = ApiModel.TStatus.failed
    ∧ (ApiModel.runOps ApiModel.initState
        (ApiModel.failedProgram "d" "boom" 0)).task.completedAt = none
    ∧ (ApiModel.runOps ApiModel.initState
        (ApiModel.failedProgram "d" "boom" 0)).task.result = some "Error: boom" :=
  ⟨rfl, rfl, rfl⟩

/-- C4 (amended): on completion, `result` holds the executor result and
`completedAt` is set, exactly once (along the whole trace it changes only
from `none`, at the terminal transition); on failure, the error text is
stored in the `result` field — the record has no separate error field —
and `completedAt` is never set. -/
theorem C4_terminal_fields :
    ∀ (desc res emsg : String) (k : Nat),
      (ApiModel.runOps ApiModel.initState (ApiModel.completedProgram desc res k)).task.status
          = ApiModel.TStatus.completed
      ∧ (ApiModel.runOps ApiModel.initState
          (ApiModel.completedProgram desc res k)).task.result = some res
      ∧ (∃ c, (ApiModel.runOps ApiModel.initState
          (ApiModel.completedProgram desc res k)).task.completedAt = some c)
      ∧ List.Chain' ApiModel.CAOnce
          (ApiModel.runTrace ApiModel.initState (ApiModel.completedProgram desc res k))
      ∧ (ApiModel.runOps ApiModel.initState (ApiModel.failedProgram desc emsg k)).task.status
          = ApiModel.TStatus.failed
      ∧ (ApiModel.runOps ApiModel.initState
          (ApiModel.failedProgram desc emsg k)).task.result = some ("Error: " ++ emsg)
      ∧ (ApiModel.runOps ApiModel.initState
          (ApiModel.failedProgram desc emsg k)).task.completedAt = none
      ∧ List.Chain' ApiModel.CAOnce
          (ApiModel.runTrace ApiModel.initState (ApiModel.failedProgram desc emsg k)) := by
  intro desc res emsg k
  have hc : ApiModel.runOps ApiModel.initState (ApiModel.completedProgram desc res k)
      = ApiModel.runOps (ApiModel.midState desc k) (ApiModel.completeOps res) := by
    rw [ApiModel.completedProgram_decomp, ApiModel.runOps_append]
    rfl
  refine ⟨?_, ?_, ?_, ?_, ?_, ?_, ?_, ?_⟩
  · rw [hc]; exact ApiModel.completeOps_status res _
  · rw [hc]; exact ApiModel.completeOps_result res _
  · rw [hc]
    exact ⟨(ApiModel.midState desc k).now + 4, ApiModel.completeOps_ca res _⟩
  · exact ApiModel.trace_chain_caOnce _ _ (ApiModel.stepsOk_completedProgram desc res k)
  · exact ApiModel.failedFinal_status desc emsg k
  · exact ApiModel.failedFinal_result desc emsg k
  · exact ApiModel.failedFinal_ca desc emsg k
  · exact ApiModel.trace_chain_caOnce _ _ (ApiModel.stepsOk_failedProgram desc emsg k)

/-- C5 (counterexample): in the modeled successful execution an event (the
`task_completed` log entry) is appended after the status became
`completed`: right after the terminal transition the log has 9 entries,
the final snapshot has 10, refuting "no event is appended after a terminal
status". -/
theorem C5_event_appended_after_terminal :
    (ApiModel.runOps ApiModel.initState
        ((ApiModel.completedProgram "d" "R" 0).take 12)).task.status
      = ApiModel.TStatus.completed
    ∧ (ApiModel.runOps ApiModel.initState
        ((ApiModel.completedProgram "d" "R" 0).take 12)).task.log.length = 9
    ∧ (ApiModel.runOps ApiModel.initState
        (ApiModel.completedProgram "d" "R" 0)).task.log.length = 10 :=
  ⟨rfl, rfl, rfl⟩

/-- C5 (amended): `log_execution` never drops an append — every call grows
the log by exactly one entry regardless of the task's status.  After the
terminal transition the success path appends exactly one event (the
`task_completed` entry, the simulation having been cancelled before the
transition); the failure path appends the `error` entry plus the remaining
`10 - k` narration events of the uncancelled simulation task (the
exception skips `simulation_task.cancel()`), none of them dropped. -/
theorem C5_appends_never_dropped :
    (∀ (s : ApiModel.SysState) (a b c d : String),
      (ApiModel.applyOp s (ApiModel.Op.logExec a b c d)).task.log.length
        = s.task.log.length + 1)
    ∧ (∀ (res : String) (m : ApiModel.SysState),
        (ApiModel.runOps m ((ApiModel.completeOps res).take 4)).task.status
            = ApiModel.TStatus.completed
        ∧ (ApiModel.runOps m (ApiModel.completeOps res)).task.log.length
            = (ApiModel.runOps m ((ApiModel.completeOps res).take 4)).task.log.length + 1)
    ∧ (∀ (desc emsg : String) (k : Nat),
        (ApiModel.runOps (ApiModel.midState desc k)
            ((ApiModel.failOps emsg).take 1)).task.status = ApiModel.TStatus.failed
        ∧ (ApiModel.runOps ApiModel.initState
              (ApiModel.failedProgram desc emsg k)).task.log.length
            = (ApiModel.runOps (ApiModel.midState desc k)
                ((ApiModel.failOps emsg).take 1)).task.log.length
              + 1 + (10 - min k 10)) := by
  refine ⟨?_, ?_, ?_⟩
  · intro s a b c d
    rw [ApiModel.log_len_applyOp]
    rfl
  · intro res m
    refine ⟨ApiModel.completeOps_take4_status res m, ?_⟩
    rw [ApiModel.completeOps_len, ApiModel.completeOps_take4_len]
  · intro desc emsg k
    refine ⟨ApiModel.failOps_take1_status emsg _, ?_⟩
    rw [ApiModel.failedFinal_len, ApiModel.failOps_take1_len, ApiModel.midState_len]
    have := Nat.min_le_right k 10
    omega

/-- C6 (counterexample): the FastAPI `create_task` endpoint performs no
validation: submitting the empty description creates a `TaskRecord`
(status `created`) and writes a `task_created` log entry for it, refuting
"rejected synchronously before any TaskRecord is created". -/
theorem C6_empty_description_creates_record :
    (ApiModel.runOps ApiModel.initState [ApiModel.createOp ""]).task.status
        = ApiModel.TStatus.created
    ∧ (ApiModel.runOps ApiModel.initState [ApiModel.createOp ""]).task.log
        = [{ timestamp := 0, agent := "system", action := "task_created"
             message := "Task created: ", level := "info" }] :=
  ⟨rfl, rfl⟩

/-- C6 (amended): only the serverless handler (`api/tasks.py`) rejects an
empty description before creating anything (HTTP 400, no record); for any
non-empty description it creates and stores a record.  The FastAPI
`create_task` endpoint creates a record with one `task_created` log entry
for every description, including the empty one. -/
theorem C6_empty_description_validation :
    ServerlessApi.tasksPost "" = none
    ∧ (∀ d : String, d ≠ "" →
        ∃ t, ServerlessApi.tasksPost d = some t
          ∧ t.status = "running" ∧ t.progress = 10 ∧ t.description = d)
    ∧ (∀ desc : String,
        (ApiModel.runOps ApiModel.initState [ApiModel.createOp desc]).task.log.length = 1
        ∧ (ApiModel.runOps ApiModel.initState [ApiModel.createOp desc]).task.status
            = ApiModel.TStatus.created) := by
  refine ⟨rfl, ?_, ?_⟩
  · intro d hd
    have heq : ServerlessApi.tasksPost d = some
        { status := "running"
          description := d
          completed_at := none
          result := none
          execution_log :=
            [ ("system", "task_created", "Task created: " ++ d, "info")
            , ("orchestration_coordinator", "task_started", "Starting task analysis", "info") ]
          current_agent := some "orchestration_coordinator"
          current_step := some "Analyzing task requirements"
          progress := 10 } := by
      unfold ServerlessApi.tasksPost
      rw [if_neg hd]
    exact ⟨_, heq, rfl, rfl, rfl⟩
  · intro desc
    exact ⟨rfl, rfl⟩

/-- C6 (witness): the amended theorem applied to a concrete non-empty
description. -/
theorem C6_empty_description_validation_witness :
    ∃ t, ServerlessApi.tasksPost "x" = some t
      ∧ t.status = "running" ∧ t.progress = 10 ∧ t.description = "x" :=
  C6_empty_description_validation.2.1 "x" (by decide)

/-- C7 (counterexample): after an executor error "boom" the final snapshot
has `progress = 90` (with all ten narration events logged), not 0: the
`error` log entry appended after `progress := 0` recomputes progress from
the event count. -/
theorem C7_failed_final_progress_not_zero :
    (ApiModel.runOps ApiModel.initState (ApiModel.failedProgram "d" "boom" 10)).task.status
        = ApiModel.TStatus.failed
    ∧ (ApiModel.runOps ApiModel.initState
        (ApiModel.failedProgram "d" "boom" 10)).task.progress = 90 :=
  ⟨rfl, rfl⟩

/-- C7 (amended): when the executor raises `emsg`, the quiescent final
snapshot has `status = failed` and the text `"Error: " ++ emsg` stored in
the `result` field (there is no separate error field), and an
`error`-level event carrying the failure message is appended.  However,
`progress` is not 0: the `error` log entry and the `10 - k` narration
events of the uncancelled simulation task recompute it, ending at 90
(18 logged events) for every failure point `k`.  The `except` block does
reset every worker to `ready`, but straggler narration events after the
reset re-mark their agents busy: whenever the narration had not already
finished (`k < 10`), the final state has `task_allocation_manager` busy. -/
theorem C7_executor_failure_final_state :
    ∀ (desc emsg : String) (k : Nat),
      (ApiModel.runOps ApiModel.initState (ApiModel.failedProgram desc emsg k)).task.status
          = ApiModel.TStatus.failed
      ∧ (ApiModel.runOps ApiModel.initState
          (ApiModel.failedProgram desc emsg k)).task.result = some ("Error: " ++ emsg)
      ∧ (ApiModel.runOps ApiModel.initState
          (ApiModel.failedProgram desc emsg k)).task.progress = 90
      ∧ (ApiModel.runOps ApiModel.initState
          (ApiModel.failedProgram desc emsg k)).task.progress ≠ 0
      ∧ (∃ ts, ({ timestamp := ts, agent := "system", action := "error"
                  message := "Task execution failed: " ++ emsg, level := "error" }
                    : ApiModel.LogEntry)
            ∈ (ApiModel.runOps ApiModel.initState
                (ApiModel.failedProgram desc emsg k)).task.log)
      ∧ (∀ w ∈ (ApiModel.runOps (ApiModel.midState desc k)
            (ApiModel.failOps emsg)).workers,
          w.wstatus = "ready" ∧ w.currentTask = none)
      ∧ (k < 10 →
          ∃ w ∈ (ApiModel.runOps ApiModel.initState
              (ApiModel.failedProgram desc emsg k)).workers,
            w.name = "task_allocation_manager" ∧ w.wstatus = "busy") := by
  intro desc emsg k
  refine ⟨?_, ?_, ?_, ?_, ?_, ?_, ?_⟩
  · exact ApiModel.failedFinal_status desc emsg k
  · exact ApiModel.failedFinal_result desc emsg k
  · exact ApiModel.failedFinal_progress desc emsg k
  · rw [ApiModel.failedFinal_progress]
    omega
  · exact ⟨(ApiModel.midState desc k).now + 3, ApiModel.failedFinal_error_mem desc emsg k⟩
  · exact ApiModel.failOps_workers emsg _
  · intro hk
    exact ApiModel.failedFinal_tam_busy desc emsg k hk

/-- C7 (witness): the amended theorem applied to a concrete failed
execution and the first worker of the post-`except` state. -/
theorem C7_executor_failure_final_state_witness :
    ((ApiModel.runOps (ApiModel.midState "d" 10)
        (ApiModel.failOps "boom")).workers.get ⟨0, by decide⟩).wstatus = "ready"
    ∧ ((ApiModel.runOps (ApiModel.midState "d" 10)
        (ApiModel.failOps "boom")).workers.get ⟨0, by decide⟩).currentTask = none :=
  (C7_executor_failure_final_state "d" "boom" 10).2.2.2.2.2.1 _ (List.get_mem _ _ _)

/-- C8 (counterexample): on the input "make coordinate organize" the
agent-expansion classifier `_extract_intent` returns `create` (first
declared intent with any matched pattern), while the claimed scored argmax
(3 per matched keyword: create scores 3, manage scores 6) returns
`manage`; the agent path does not implement the scoring rule. -/
theorem C8_creator_intent_not_scored :
    IntelligentAgentCreator.extract_intent "make coordinate organize" = "create"
    ∧ SpecSide.creator_intent_scored_spec "make coordinate organize" = "manage"
    ∧ ("create" : String) ≠ "manage" :=
  ⟨rfl, rfl, by decide⟩

/-- C8 (amended): the task-expansion classifier `_detect_intent` computes
3 per matched keyword plus 2 per matched indicator, returns the argmax
with ties broken by declaration order and falls back to `research` exactly
when all scores are zero; the agent-expansion classifier `_extract_intent`
instead returns the first intent in declaration order with any matched
pattern (ignoring match counts; its table has no secondary indicators),
falling back to `general` when none matches. -/
theorem C8_intent_classification :
    (∀ text, IntelligentOrchestrator.detect_intent text
        = SpecSide.detect_intent_spec text)
    ∧ (∀ text, IntelligentAgentCreator.extract_intent text
        = SpecSide.extract_intent_first_match_spec text) := by
  constructor
  · intro text
    simp only [IntelligentOrchestrator.detect_intent, SpecSide.detect_intent_spec]
    have hfn : (fun p : String × IntelligentOrchestrator.IntentConfig =>
          (p.1, IntelligentOrchestrator.intentScore p.2 text))
        = (fun p => (p.1, SpecSide.intentScoreSpec p.2.keywords p.2.indicators text)) :=
      funext fun p => by rw [intentScore_eq_spec]
    rw [hfn]
    by_cases hall : (IntelligentOrchestrator.intent_patterns.map
        (fun p => (p.1, SpecSide.intentScoreSpec p.2.keywords p.2.indicators text))).all
          (fun p => decide (p.2 = 0)) = true
    · have hmax : ¬ maxScore (IntelligentOrchestrator.intent_patterns.map
          (fun p => (p.1, SpecSide.intentScoreSpec p.2.keywords p.2.indicators text))) > 0 := by
        rw [maxScore_pos_iff]
        exact fun hc => hc hall
      rw [if_neg hmax, if_pos hall]
    · have hmax : maxScore (IntelligentOrchestrator.intent_patterns.map
          (fun p => (p.1, SpecSide.intentScoreSpec p.2.keywords p.2.indicators text))) > 0 :=
        (maxScore_pos_iff _).mpr hall
      rw [if_pos hmax, if_neg hall]
      cases hS : IntelligentOrchestrator.intent_patterns.map
          (fun p => (p.1, SpecSide.intentScoreSpec p.2.keywords p.2.indicators text)) with
      | nil => simp [IntelligentOrchestrator.intent_patterns] at hS
      | cons p t =>
        exact pyMaxKey_eq_firstArgmax p t _ _
  · intro text
    simp only [IntelligentAgentCreator.extract_intent,
      SpecSide.extract_intent_first_match_spec]
    have hpred : ∀ p : String × List String,
        (p.2.any fun pat => pyIn pat text)
          = decide (0 < p.2.countP (fun pat => pyIn pat text)) := by
      intro p
      by_cases h : 0 < p.2.countP (fun pat => pyIn pat text)
      · rw [decide_eq_true h]
        exact (any_iff_countP_pos _ _).mpr h
      · rw [decide_eq_false h]
        cases hb : (p.2.any fun pat => pyIn pat text) with
        | false => rfl
        | true => exact absurd ((any_iff_countP_pos _ _).mp hb) h
    rw [find?_pred_ext IntelligentAgentCreator.creator_intent_patterns _ _ hpred]
